import Mathlib

/-!
# computer-volume-control-mcp: the protocol dispatcher and the audio tool layer

A shallow embedding of `src/mcp-server.js` (the `rl.on('line')` handler) and of
`src/index.js` (the wrappers around the `loudness` package), followed by the
properties of the specification that are settled on it.

Modelling conventions.

* A parsed message is a `Json` value; a JS value that may be `undefined` is an
  `Option Json` (`none` is `undefined`).
* A finite JS number is modelled by its exact value, a rational (`JsNum`), with
  exact arithmetic. Comparisons and `Math.min`/`Math.max` of finite numbers are the
  same in JS; the sums, differences and renderings of the model are those of JS on
  integers of magnitude at most `2^53`, and every property that states the result
  of an addition, a subtraction or a rendering is stated for such integers. The
  rounding of a numeral by `JSON.parse` happens before the model; `Infinity`, which
  `JSON.parse` gives for a numeral beyond the double range, is the value
  `Json.inf`; `NaN` appears only in `JsNumber`, the argument type of the clamp of
  `setVolume`.
* The `loudness` package is outside the repository: it is a parameter, an
  `AudioBackend` over an arbitrary device state whose four operations may fail
  with a message and may change the device in any way.
* The process state is a `World`: the device, the log of backend calls made so
  far, the lines written to standard output (each line is the object handed to
  `JSON.stringify`) and the lines written to standard error.
* An exception is modelled by its `message`, the only part the handlers read.
-/

namespace VolumeMcp

/-! ## JSON values -/

/-- A finite JS number, by its exact value. The type has no `NaN` and no infinity,
and its arithmetic is exact: it is the arithmetic of JS doubles on integers of
magnitude at most `2^53`, not beyond (JS rounds `0.3 - 0.1`). -/
abbrev JsNum := ℚ

/-- A value produced by `JSON.parse`. The fields of an object are kept in source
order. `inf negative` is the number `Infinity` (or `-Infinity` when `negative`), which
`JSON.parse` gives for a numeral beyond the double range, such as `1e999`. -/
inductive Json where
  | null
  | bool (b : Bool)
  | num (n : JsNum)
  | str (s : String)
  | arr (items : List Json)
  | obj (fields : List (String × Json))
  | inf (negative : Bool)

/-- A JS value that may be `undefined` (`none`). -/
abbrev JsVal := Option Json

/-- Value bound to key `k` in the fields of a parsed object. `JSON.parse` keeps the
last value of a repeated key, so the last binding wins. -/
def lookupKey (k : String) : List (String × Json) → JsVal
  | [] => none
  | (k', v) :: rest =>
    match lookupKey k rest with
    | some w => some w
    | none => if k' = k then some v else none

/-- The property read `v.k` on a value `v` that is neither `null` nor `undefined`,
for the property names the server reads (`method`, `id`, `params`, `name`,
`arguments`, `volume`). None of them is defined on a prototype, so the read gives
`undefined` on everything but an object that carries the key. -/
def propOf (v : Json) (k : String) : JsVal :=
  match v with
  | .obj fields => lookupKey k fields
  | _ => none

/-- The property read `v.k` on a parsed message: a `TypeError` on `null` (V8's
wording of the message), `propOf` otherwise. -/
def getProp (v : Json) (k : String) : Except String JsVal :=
  match v with
  | .null => .error ("Cannot read properties of null (reading '" ++ k ++ "')")
  | w => .ok (propOf w k)

/-- The comparison `v === s` of a JS value with a string literal. -/
def strictEq (v : JsVal) (s : String) : Bool :=
  match v with
  | some (.str t) => t == s
  | _ => false

/-- Digits after the decimal point of `r / d` (with `r < d`), at most `fuel` of
them, stopping when the expansion ends. -/
def fracDigits : Nat → Nat → Nat → String
  | 0, _, _ => ""
  | fuel + 1, r, d =>
    if r = 0 then "" else toString (r * 10 / d) ++ fracDigits fuel (r * 10 % d) d

/-- The text `${n}` of a finite number in a template literal. An integer is written
in decimal, which is JS's rendering for every integer of magnitude at most `2^53`.
A non-integer is written as its plain decimal expansion; this is JS's rendering of a
short decimal such as `42.5`, but not in general (JS prints the shortest digits that
round-trip and uses exponent notation below `1e-6` and from `1e21` on). The
properties that state a rendered number are stated for integers. -/
def numToString (q : JsNum) : String :=
  if q.den = 1 then toString q.num
  else (if q < 0 then "-" else "") ++ toString (q.num.natAbs / q.den) ++ "."
    ++ fracDigits 17 (q.num.natAbs % q.den) q.den

mutual
/-- The conversion `ToString` of a parsed JSON value, as a template literal applies
it. An object is `[object Object]` unless it carries its own `toString` key: the
value under that key is not callable and `Object.prototype.valueOf` returns the
object itself, so the conversion throws a `TypeError`. -/
def jsToString : Json → Except String String
  | .null => .ok "null"
  | .bool b => .ok (if b then "true" else "false")
  | .num n => .ok (numToString n)
  | .str s => .ok s
  | .arr items => jsJoin items
  | .obj fields =>
    if fields.any (fun kv => kv.1 == "toString") then
      .error "Cannot convert object to primitive value"
    else .ok "[object Object]"
  | .inf negative => .ok (if negative then "-Infinity" else "Infinity")
/-- The `Array.prototype.join` behind the `ToString` of an array: the elements
are separated by commas. -/
def jsJoin : List Json → Except String String
  | [] => .ok ""
  | [x] => jsElem x
  | x :: y :: rest =>
    match jsElem x with
    | .error m => .error m
    | .ok s =>
      match jsJoin (y :: rest) with
      | .error m => .error m
      | .ok t => .ok (s ++ "," ++ t)
/-- One element of a joined array: `null` is the empty text. -/
def jsElem : Json → Except String String
  | .null => .ok ""
  | .bool b => .ok (if b then "true" else "false")
  | .num n => .ok (numToString n)
  | .str s => .ok s
  | .arr items => jsJoin items
  | .obj fields =>
    if fields.any (fun kv => kv.1 == "toString") then
      .error "Cannot convert object to primitive value"
    else .ok "[object Object]"
  | .inf negative => .ok (if negative then "-Infinity" else "Infinity")
end

/-- The text `${v}` of a JS value in a template literal. -/
def templateText : JsVal → Except String String
  | none => .ok "undefined"
  | some v => jsToString v

/-! ## The audio backend and the process state -/

/-- One call of the `loudness` package, with its argument and its outcome. -/
inductive Call where
  | getVolume (r : Except String JsNum)
  | setVolume (v : JsNum) (r : Except String Unit)
  | getMuted (r : Except String Bool)
  | setMuted (b : Bool) (r : Except String Unit)

/-- The message of the failure a call ended with, if it failed. -/
def Call.failure : Call → Option String
  | .getVolume (.error m) => some m
  | .setVolume _ (.error m) => some m
  | .getMuted (.error m) => some m
  | .setMuted _ (.error m) => some m
  | _ => none

/-- The `loudness` package as the server uses it: four operations on a device of
state `σ`. Each returns its outcome (a value, or the message of the error it
rejects with) and the device state it leaves. -/
structure AudioBackend (σ : Type) where
  getVolume : σ → Except String JsNum × σ
  setVolume : JsNum → σ → Except String Unit × σ
  getMuted : σ → Except String Bool × σ
  setMuted : Bool → σ → Except String Unit × σ

/-- The state of the process and of its surroundings. -/
structure World (σ : Type) where
  device : σ
  calls : List Call
  stdout : List Json
  stderr : List String

variable {σ : Type}

/-- The call `loudness.getVolume()`. -/
def loudnessGetVolume (be : AudioBackend σ) (w : World σ) : Except String JsNum × World σ :=
  ((be.getVolume w.device).1,
    { w with device := (be.getVolume w.device).2,
             calls := w.calls ++ [Call.getVolume (be.getVolume w.device).1] })

/-- The call `loudness.setVolume(v)`. -/
def loudnessSetVolume (be : AudioBackend σ) (v : JsNum) (w : World σ) :
    Except String Unit × World σ :=
  ((be.setVolume v w.device).1,
    { w with device := (be.setVolume v w.device).2,
             calls := w.calls ++ [Call.setVolume v (be.setVolume v w.device).1] })

/-- The call `loudness.getMuted()`. -/
def loudnessGetMuted (be : AudioBackend σ) (w : World σ) : Except String Bool × World σ :=
  ((be.getMuted w.device).1,
    { w with device := (be.getMuted w.device).2,
             calls := w.calls ++ [Call.getMuted (be.getMuted w.device).1] })

/-- The call `loudness.setMuted(b)`. -/
def loudnessSetMuted (be : AudioBackend σ) (b : Bool) (w : World σ) :
    Except String Unit × World σ :=
  ((be.setMuted b w.device).1,
    { w with device := (be.setMuted b w.device).2,
             calls := w.calls ++ [Call.setMuted b (be.setMuted b w.device).1] })

/-- One line written to standard error (`console.error`, or `process.stderr.write`
of a text ending in a newline). -/
def logError (w : World σ) (line : String) : World σ :=
  { w with stderr := w.stderr ++ [line] }

/-- One line written to standard output: `console.log(JSON.stringify(response))`. -/
def writeLine (w : World σ) (response : Json) : World σ :=
  { w with stdout := w.stdout ++ [response] }

/-! ## `src/index.js` -/

/-- `getCurrentVolume` of `index.js`. -/
def getCurrentVolume (be : AudioBackend σ) (w : World σ) : Except String JsNum × World σ :=
  match loudnessGetVolume be w with
  | (.ok volume, w1) => (.ok volume, w1)
  | (.error m, w1) => (.error m, logError w1 ("Error getting volume level: " ++ m))

/-- `setVolume` of `index.js`: the value is clamped to `[0, 100]` before the write. -/
def setVolume (be : AudioBackend σ) (volume : JsNum) (w : World σ) :
    Except String Unit × World σ :=
  match loudnessSetVolume be (max 0 (min 100 volume)) w with
  | (.ok u, w1) => (.ok u, w1)
  | (.error m, w1) => (.error m, logError w1 ("Error setting volume: " ++ m))

/-- `getMuteStatus` of `index.js`. -/
def getMuteStatus (be : AudioBackend σ) (w : World σ) : Except String Bool × World σ :=
  match loudnessGetMuted be w with
  | (.ok isMuted, w1) => (.ok isMuted, w1)
  | (.error m, w1) => (.error m, logError w1 ("Error getting mute status: " ++ m))

/-- `mute` of `index.js`. -/
def mute (be : AudioBackend σ) (w : World σ) : Except String Unit × World σ :=
  match loudnessSetMuted be true w with
  | (.ok u, w1) => (.ok u, w1)
  | (.error m, w1) => (.error m, logError w1 ("Error muting system: " ++ m))

/-- `unmute` of `index.js`. -/
def unmute (be : AudioBackend σ) (w : World σ) : Except String Unit × World σ :=
  match loudnessSetMuted be false w with
  | (.ok u, w1) => (.ok u, w1)
  | (.error m, w1) => (.error m, logError w1 ("Error unmuting system: " ++ m))

/-- `increaseVolume` of `index.js`: read the volume, write `min(100, read + 10)`. -/
def increaseVolume (be : AudioBackend σ) (w : World σ) : Except String Unit × World σ :=
  match loudnessGetVolume be w with
  | (.error m, w1) => (.error m, logError w1 ("Error increasing volume: " ++ m))
  | (.ok currentVolume, w1) =>
    match loudnessSetVolume be (min 100 (currentVolume + 10)) w1 with
    | (.ok u, w2) => (.ok u, w2)
    | (.error m, w2) => (.error m, logError w2 ("Error increasing volume: " ++ m))

/-- `decreaseVolume` of `index.js`: read the volume, write `max(0, read - 10)`. -/
def decreaseVolume (be : AudioBackend σ) (w : World σ) : Except String Unit × World σ :=
  match loudnessGetVolume be w with
  | (.error m, w1) => (.error m, logError w1 ("Error decreasing volume: " ++ m))
  | (.ok currentVolume, w1) =>
    match loudnessSetVolume be (max 0 (currentVolume - 10)) w1 with
    | (.ok u, w2) => (.ok u, w2)
    | (.error m, w2) => (.error m, logError w2 ("Error decreasing volume: " ++ m))

/-! ## `src/mcp-server.js` -/

/-- The input schema of a tool without arguments. -/
def emptySchema : Json :=
  .obj [("type", .str "object"), ("properties", .obj []), ("required", .arr [])]

/-- The `tools` array of the `tools/list` response. -/
def toolCatalog : List Json :=
  [ .obj [("name", .str "get_current_volume"),
          ("description", .str "Get the current computer system volume level as a percentage between 0 and 100"),
          ("inputSchema", emptySchema)],
    .obj [("name", .str "set_volume"),
          ("description", .str "Set the computer system volume level to a specific percentage between 0 and 100"),
          ("inputSchema", .obj [("type", .str "object"),
            ("properties", .obj [("volume", .obj [("type", .str "number"),
              ("description", .str "Volume level as a percentage (0-100)"),
              ("minimum", .num 0), ("maximum", .num 100)])]),
            ("required", .arr [.str "volume"])])],
    .obj [("name", .str "get_mute_status"),
          ("description", .str "Check if the computer system is currently muted"),
          ("inputSchema", emptySchema)],
    .obj [("name", .str "mute_system"),
          ("description", .str "Mute the computer system audio"),
          ("inputSchema", emptySchema)],
    .obj [("name", .str "unmute_system"),
          ("description", .str "Unmute the computer system audio"),
          ("inputSchema", emptySchema)],
    .obj [("name", .str "increase_volume"),
          ("description", .str "Increase the computer system volume level by 10%"),
          ("inputSchema", emptySchema)],
    .obj [("name", .str "decrease_volume"),
          ("description", .str "Decrease the computer system volume level by 10%"),
          ("inputSchema", emptySchema)] ]

/-- The `result` of the `initialize` response. -/
def initializeResult : Json :=
  .obj [("protocolVersion", .str "2024-11-05"),
        ("capabilities", .obj [("tools", .obj [])]),
        ("serverInfo", .obj [("name", .str "computer-volume-control-mcp"),
                             ("version", .str "1.0.0")])]

/-- The object `{ jsonrpc: '2.0', id: message.id, result }` as `JSON.stringify`
writes it: a property whose value is `undefined` is left out. -/
def response (id : JsVal) (result : Json) : Json :=
  match id with
  | some i => .obj [("jsonrpc", .str "2.0"), ("id", i), ("result", result)]
  | none => .obj [("jsonrpc", .str "2.0"), ("result", result)]

/-- The `result` of a `tools/call` response. -/
def toolResult (text : String) (structuredContent : Json) (isError : Bool) : Json :=
  .obj [("content", .arr [.obj [("type", .str "text"), ("text", .str text)]]),
        ("structuredContent", structuredContent),
        ("isError", .bool isError)]

/-- The destructuring `const { volume: newVolume } = args` of the `set_volume` case:
a `TypeError` when `args` is `undefined` or `null` (V8's wording of the message). -/
def destructureVolume (args : JsVal) : Except String JsVal :=
  match args with
  | none => .error "Cannot destructure property 'volume' of 'args' as it is undefined."
  | some .null => .error "Cannot destructure property 'volume' of 'args' as it is null."
  | some a => .ok (propOf a "volume")

/-- The validation of the `set_volume` case: the number `newVolume` when
`typeof newVolume !== 'number' || newVolume < 0 || newVolume > 100` is false. -/
def validVolume (newVolume : JsVal) : Option JsNum :=
  match newVolume with
  | some (.num q) => if q < 0 ∨ q > 100 then none else some q
  | _ => none

/-- The `switch (name)` of the `tools/call` branch, up to the `break` of the case
taken: the text `result` and the object `structuredData`, or the message of the
error thrown. -/
def callTool (be : AudioBackend σ) (name args : JsVal) (w : World σ) :
    Except String (String × Json) × World σ :=
  if strictEq name "get_current_volume" then
    match getCurrentVolume be w with
    | (.error m, w1) => (.error m, w1)
    | (.ok volume, w1) =>
      (.ok ("Current system volume is " ++ numToString volume ++ "%",
            .obj [("volume", .num volume), ("unit", .str "percentage")]), w1)
  else if strictEq name "set_volume" then
    match destructureVolume args with
    | .error m => (.error m, w)
    | .ok newVolume =>
      match validVolume newVolume with
      | none => (.error "Volume must be a number between 0 and 100", w)
      | some q =>
        match setVolume be q w with
        | (.error m, w1) => (.error m, w1)
        | (.ok _, w1) =>
          (.ok ("Volume set to " ++ numToString q ++ "%",
                .obj [("volume", .num q), ("unit", .str "percentage"),
                      ("action", .str "set")]), w1)
  else if strictEq name "get_mute_status" then
    match getMuteStatus be w with
    | (.error m, w1) => (.error m, w1)
    | (.ok isMuted, w1) =>
      (.ok ("System is " ++ (if isMuted then "muted" else "not muted"),
            .obj [("muted", .bool isMuted)]), w1)
  else if strictEq name "mute_system" then
    match mute be w with
    | (.error m, w1) => (.error m, w1)
    | (.ok _, w1) =>
      (.ok ("System has been muted",
            .obj [("muted", .bool true), ("action", .str "mute")]), w1)
  else if strictEq name "unmute_system" then
    match unmute be w with
    | (.error m, w1) => (.error m, w1)
    | (.ok _, w1) =>
      (.ok ("System has been unmuted",
            .obj [("muted", .bool false), ("action", .str "unmute")]), w1)
  else if strictEq name "increase_volume" then
    match getCurrentVolume be w with
    | (.error m, w1) => (.error m, w1)
    | (.ok currentVol, w1) =>
      match increaseVolume be w1 with
      | (.error m, w2) => (.error m, w2)
      | (.ok _, w2) =>
        match getCurrentVolume be w2 with
        | (.error m, w3) => (.error m, w3)
        | (.ok newVol, w3) =>
          (.ok ("Volume increased from " ++ numToString currentVol ++ "% to "
                  ++ numToString newVol ++ "%",
                .obj [("previousVolume", .num currentVol), ("newVolume", .num newVol),
                      ("change", .num (newVol - currentVol)),
                      ("action", .str "increase"), ("unit", .str "percentage")]), w3)
  else if strictEq name "decrease_volume" then
    match getCurrentVolume be w with
    | (.error m, w1) => (.error m, w1)
    | (.ok currentVol2, w1) =>
      match decreaseVolume be w1 with
      | (.error m, w2) => (.error m, w2)
      | (.ok _, w2) =>
        match getCurrentVolume be w2 with
        | (.error m, w3) => (.error m, w3)
        | (.ok newVol2, w3) =>
          (.ok ("Volume decreased from " ++ numToString currentVol2 ++ "% to "
                  ++ numToString newVol2 ++ "%",
                .obj [("previousVolume", .num currentVol2), ("newVolume", .num newVol2),
                      ("change", .num (newVol2 - currentVol2)),
                      ("action", .str "decrease"), ("unit", .str "percentage")]), w3)
  else
    match templateText name with
    | .error m => (.error m, w)
    | .ok t => (.error ("Unknown tool: " ++ t), w)

/-- The `tools/call` branch after the destructuring of `message.params`: the inner
`try` and its `catch`, each of which ends by writing one response. -/
def toolsCall (be : AudioBackend σ) (id name args : JsVal) (w : World σ) : World σ :=
  match callTool be name args w with
  | (.ok (result, structuredData), w1) =>
    writeLine w1 (response id (toolResult result structuredData false))
  | (.error m, w1) =>
    writeLine w1 (response id (toolResult ("Error: " ++ m)
      (.obj [("error", .str m), ("errorCode", .num (-32603))]) true))

/-- The body of the outer `try` of the line handler, run on the parsed message:
the world it leaves, and the message of the error it throws, if any. -/
def dispatch (be : AudioBackend σ) (message : Json) (w : World σ) :
    Except String Unit × World σ :=
  match getProp message "method" with
  | .error m => (.error m, w)
  | .ok method =>
    if strictEq method "initialize" then
      (.ok (), writeLine w (response (propOf message "id") initializeResult))
    else if strictEq method "tools/list" then
      (.ok (), writeLine w (response (propOf message "id")
        (.obj [("tools", .arr toolCatalog)])))
    else if strictEq method "tools/call" then
      match propOf message "params" with
      | none =>
        (.error "Cannot destructure property 'name' of 'message.params' as it is undefined.", w)
      | some .null =>
        (.error "Cannot destructure property 'name' of 'message.params' as it is null.", w)
      | some params =>
        (.ok (), toolsCall be (propOf message "id") (propOf params "name")
          (propOf params "arguments") w)
    else
      (.ok (), writeLine w (response (propOf message "id") (.obj [])))

/-- The line handler on a parsed message: the outer `try` and its `catch`, which
writes the error to standard error. -/
def onMessage (be : AudioBackend σ) (message : Json) (w : World σ) : World σ :=
  match dispatch be message w with
  | (.ok _, w1) => w1
  | (.error m, w1) => logError w1 ("Error processing message: " ++ m)

/-- The line handler `rl.on('line', ...)`. `JSON.parse` is a parameter: it gives
the parsed value, or the message of the `SyntaxError` it throws. -/
def onLine (parse : String → Except String Json) (be : AudioBackend σ) (line : String)
    (w : World σ) : World σ :=
  match parse line with
  | .error m => logError w ("Error processing message: " ++ m)
  | .ok message => onMessage be message w

/-! ## A device that never fails -/

/-- The audio device: its volume and its mute flag. -/
structure Device where
  volume : JsNum
  muted : Bool

/-- Modelled from the spec: the `loudness` package is not part of the repository.
This is the AudioBackend of section 4.4 when no operation fails and nothing else
touches the device: a read returns the stored value and a write stores its
argument. -/
def idealBackend : AudioBackend Device where
  getVolume d := (.ok d.volume, d)
  setVolume v d := (.ok (), { d with volume := v })
  getMuted d := (.ok d.muted, d)
  setMuted b d := (.ok (), { d with muted := b })

/-- A backend whose every operation fails with the message `m` and leaves the device
as it is. -/
def failingBackend (m : String) : AudioBackend Device where
  getVolume d := (.error m, d)
  setVolume _ d := (.error m, d)
  getMuted d := (.error m, d)
  setMuted _ d := (.error m, d)

/-- A process that has made no call and written nothing yet. -/
def freshWorld (d : σ) : World σ :=
  { device := d, calls := [], stdout := [], stderr := [] }

/-! ## Vocabulary of the properties -/

/-- A run from `w` that writes nothing to standard output, only adds backend calls to
the log, and ends with the message of any call that failed. -/
def Propagates {α : Type} (w : World σ) (p : Except String α × World σ) : Prop :=
  p.2.stdout = w.stdout ∧
    ∃ cs, p.2.calls = w.calls ++ cs ∧ ∀ c ∈ cs, ∀ m, c.failure = some m → p.1 = .error m

/-- The message is a `tools/call` request whose `params` can be destructured, with
tool name `name` and arguments `args` (either may be `undefined`). -/
def IsToolsCall (message : Json) (name args : JsVal) : Prop :=
  strictEq (propOf message "method") "tools/call" = true ∧
    ∃ params, propOf message "params" = some params ∧ params ≠ Json.null ∧
      propOf params "name" = name ∧ propOf params "arguments" = args

/-- A request the dispatcher can read: an object which, when its method is
`tools/call`, carries a `params` value that is not `null`. -/
def Answerable (message : Json) : Prop :=
  (∃ fields, message = Json.obj fields) ∧
    (strictEq (propOf message "method") "tools/call" = true →
      ∃ params, propOf message "params" = some params ∧ params ≠ Json.null)

/-- The `structuredContent` of a written response whose result is a success
(`isError: false`). -/
def successContent (line : Json) : JsVal :=
  match propOf line "result" with
  | some result =>
    match propOf result "isError" with
    | some (.bool false) => propOf result "structuredContent"
    | _ => none
  | none => none

/-- The volume values a written response reports on success: the members `volume`,
`previousVolume` and `newVolume` of its `structuredContent`. -/
def reportedVolumes (line : Json) : List Json :=
  match successContent line with
  | some content => ["volume", "previousVolume", "newVolume"].filterMap (propOf content)
  | none => []

/-- The values handed to the volume setter by a list of backend calls. -/
def writtenVolumes (cs : List Call) : List JsNum :=
  cs.filterMap fun c =>
    match c with
    | .setVolume v _ => some v
    | _ => none

/-- The tool name `message.params.name` of a request. -/
def toolName (message : Json) : JsVal :=
  match propOf message "params" with
  | some params => propOf params "name"
  | none => none

/-- The request `{jsonrpc: "2.0", id, method}` without `params`. -/
def plainRequest (id : Json) (method : String) : Json :=
  .obj [("jsonrpc", .str "2.0"), ("id", id), ("method", .str method)]

/-- The request `{jsonrpc: "2.0", id, method: "tools/call", params: {name, arguments}}`;
`arguments` is left out when it is `undefined`. -/
def toolsCallRequest (id : Json) (name : String) (args : JsVal) : Json :=
  .obj [("jsonrpc", .str "2.0"), ("id", id), ("method", .str "tools/call"),
        ("params", .obj (("name", .str name) ::
          (match args with
           | some a => [("arguments", a)]
           | none => [])))]

/-- Two worlds that differ at most in what was written to standard error. -/
def SameButStderr (w w' : World σ) : Prop :=
  w.device = w'.device ∧ w.calls = w'.calls ∧ w.stdout = w'.stdout

/-- Two runs with the same outcome whose final worlds differ at most in standard error. -/
def Agree {α : Type} (p q : Except String α × World σ) : Prop :=
  p.1 = q.1 ∧ SameButStderr p.2 q.2

/-- A stand-in for `JSON.parse` on a few sample lines: the JSON texts `null`, `42` and
`[]` are parsed, every other line is rejected. -/
def sampleParse (line : String) : Except String Json :=
  if line = "null" then .ok .null
  else if line = "42" then .ok (.num 42)
  else if line = "[]" then .ok (.arr [])
  else .error "Unexpected token"

/-- A backend whose reads return the values of a script, one after the other (and 0
once the script is used up), whatever is written: a device that something else keeps
changing. No operation fails. -/
def scriptedBackend : AudioBackend (List JsNum) where
  getVolume d :=
    match d with
    | [] => (.ok 0, [])
    | v :: rest => (.ok v, rest)
  setVolume _ d := (.ok (), d)
  getMuted d := (.ok false, d)
  setMuted _ d := (.ok (), d)

/-- The tool names advertised by the catalog: the `name` of each entry that has a
string name, in catalog order. -/
def catalogNames : List String :=
  toolCatalog.filterMap fun t =>
    match propOf t "name" with
    | some (.str s) => some s
    | _ => none

mutual
/-- The JSON value that `JSON.stringify` writes for a value of the model: `Infinity`
and `-Infinity` are written as `null`, inside arrays and objects too; everything else
is written as it is. (Members are kept as listed, which is what `JSON.stringify` does
for the objects the handler builds.) -/
def written : Json → Json
  | .null => .null
  | .bool b => .bool b
  | .num n => .num n
  | .str s => .str s
  | .arr items => .arr (writtenItems items)
  | .obj fields => .obj (writtenFields fields)
  | .inf _ => .null
/-- The items of a written array. -/
def writtenItems : List Json → List Json
  | [] => []
  | x :: rest => written x :: writtenItems rest
/-- The members of a written object. -/
def writtenFields : List (String × Json) → List (String × Json)
  | [] => []
  | (k, v) :: rest => (k, written v) :: writtenFields rest
end

/-- The request ids that survive `JSON.parse` and `JSON.stringify` unchanged: `null`,
booleans, strings, finite numbers, and arrays of such values. (Object ids are left
out: the order of their members and the fate of a repeated name are decided by the
runtime.) -/
inductive Echoable : Json → Prop where
  | null : Echoable .null
  | bool (b : Bool) : Echoable (.bool b)
  | num (n : JsNum) : Echoable (.num n)
  | str (s : String) : Echoable (.str s)
  | arr (items : List Json) (h : ∀ x ∈ items, Echoable x) : Echoable (.arr items)

/-- A JS number as a caller can hand it to the exported `setVolume`: a finite value,
`NaN`, or an infinity (`infinity true` is `-Infinity`). -/
inductive JsNumber where
  | finite (q : JsNum)
  | nan
  | infinity (negative : Bool)

/-- The function `Math.min` on two JS numbers: `NaN` when either is `NaN`. -/
def mathMin : JsNumber → JsNumber → JsNumber
  | .nan, _ => .nan
  | _, .nan => .nan
  | .infinity true, _ => .infinity true
  | _, .infinity true => .infinity true
  | .infinity false, y => y
  | x, .infinity false => x
  | .finite p, .finite q => .finite (min p q)

/-- The function `Math.max` on two JS numbers: `NaN` when either is `NaN`. -/
def mathMax : JsNumber → JsNumber → JsNumber
  | .nan, _ => .nan
  | _, .nan => .nan
  | .infinity false, _ => .infinity false
  | _, .infinity false => .infinity false
  | .infinity true, y => y
  | x, .infinity true => x
  | .finite p, .finite q => .finite (max p q)

/-- The expression `Math.max(0, Math.min(100, volume))` of `setVolume` (`index.js`,
line 32) on an arbitrary JS number. On a finite number it is the value
`max 0 (min 100 volume)` that the `setVolume` of the model writes. -/
def clampedVolume (volume : JsNumber) : JsNumber :=
  mathMax (.finite 0) (mathMin (.finite 100) volume)

/-! ## Properties -/

section Lemmas

variable {α β : Type}

theorem Propagates.refl (w : World σ) (r : Except String α) : Propagates w (r, w) :=
  ⟨rfl, [], by simp, by simp⟩

theorem Propagates.logError {w : World σ} {m : String} {w1 : World σ}
    (h : Propagates w ((.error m : Except String α), w1)) (line : String) :
    Propagates w ((.error m : Except String β), logError w1 line) := by
  obtain ⟨h1, cs, h2, h3⟩ := h
  refine ⟨h1, cs, h2, fun c hc m' hm => ?_⟩
  have := h3 c hc m' hm
  simp only [Except.error.injEq] at this
  simp [this]

theorem Propagates.rethrow {w : World σ} {m : String} {w1 : World σ}
    (h : Propagates w ((.error m : Except String α), w1)) :
    Propagates w ((.error m : Except String β), w1) := by
  obtain ⟨h1, cs, h2, h3⟩ := h
  refine ⟨h1, cs, h2, fun c hc m' hm => ?_⟩
  have := h3 c hc m' hm
  simp only [Except.error.injEq] at this
  simp [this]

theorem Propagates.seq {w w1 : World σ} {a : α} {p : Except String β × World σ}
    (h : Propagates w ((.ok a : Except String α), w1)) (h' : Propagates w1 p) :
    Propagates w p := by
  obtain ⟨h1, cs, h2, h3⟩ := h
  obtain ⟨k1, ds, k2, k3⟩ := h'
  simp only at h1 h2
  refine ⟨k1.trans h1, cs ++ ds, by simp [k2, h2], fun c hc m hm => ?_⟩
  rcases List.mem_append.1 hc with hc | hc
  · exact absurd (h3 c hc m hm) (by simp)
  · exact k3 c hc m hm

theorem Propagates.done {w w1 : World σ} {a : α} (h : Propagates w ((.ok a : Except String α), w1))
    (b : β) : Propagates w ((.ok b : Except String β), w1) :=
  h.seq (Propagates.refl w1 _)

theorem propagates_loudnessGetVolume (be : AudioBackend σ) (w : World σ) :
    Propagates w (loudnessGetVolume be w) := by
  refine ⟨rfl, [Call.getVolume (be.getVolume w.device).1], rfl, fun c hc m hm => ?_⟩
  simp only [List.mem_singleton] at hc
  subst hc
  simp only [loudnessGetVolume]
  cases h : (be.getVolume w.device).1 <;> simp_all [Call.failure]

theorem propagates_loudnessSetVolume (be : AudioBackend σ) (v : JsNum) (w : World σ) :
    Propagates w (loudnessSetVolume be v w) := by
  refine ⟨rfl, [Call.setVolume v (be.setVolume v w.device).1], rfl, fun c hc m hm => ?_⟩
  simp only [List.mem_singleton] at hc
  subst hc
  simp only [loudnessSetVolume]
  cases h : (be.setVolume v w.device).1 <;> simp_all [Call.failure]

theorem propagates_loudnessGetMuted (be : AudioBackend σ) (w : World σ) :
    Propagates w (loudnessGetMuted be w) := by
  refine ⟨rfl, [Call.getMuted (be.getMuted w.device).1], rfl, fun c hc m hm => ?_⟩
  simp only [List.mem_singleton] at hc
  subst hc
  simp only [loudnessGetMuted]
  cases h : (be.getMuted w.device).1 <;> simp_all [Call.failure]

theorem propagates_loudnessSetMuted (be : AudioBackend σ) (b : Bool) (w : World σ) :
    Propagates w (loudnessSetMuted be b w) := by
  refine ⟨rfl, [Call.setMuted b (be.setMuted b w.device).1], rfl, fun c hc m hm => ?_⟩
  simp only [List.mem_singleton] at hc
  subst hc
  simp only [loudnessSetMuted]
  cases h : (be.setMuted b w.device).1 <;> simp_all [Call.failure]

theorem propagates_getCurrentVolume (be : AudioBackend σ) (w : World σ) :
    Propagates w (getCurrentVolume be w) := by
  have h := propagates_loudnessGetVolume be w
  rcases hp : loudnessGetVolume be w with ⟨_ | _, w1⟩ <;> rw [hp] at h
  · simpa [getCurrentVolume, hp] using h.logError _
  · simpa [getCurrentVolume, hp] using h

theorem propagates_setVolume (be : AudioBackend σ) (v : JsNum) (w : World σ) :
    Propagates w (setVolume be v w) := by
  have h := propagates_loudnessSetVolume be (max 0 (min 100 v)) w
  rcases hp : loudnessSetVolume be (max 0 (min 100 v)) w with ⟨_ | _, w1⟩ <;> rw [hp] at h
  · simpa [setVolume, hp] using h.logError _
  · simpa [setVolume, hp] using h

theorem propagates_getMuteStatus (be : AudioBackend σ) (w : World σ) :
    Propagates w (getMuteStatus be w) := by
  have h := propagates_loudnessGetMuted be w
  rcases hp : loudnessGetMuted be w with ⟨_ | _, w1⟩ <;> rw [hp] at h
  · simpa [getMuteStatus, hp] using h.logError _
  · simpa [getMuteStatus, hp] using h

theorem propagates_mute (be : AudioBackend σ) (w : World σ) : Propagates w (mute be w) := by
  have h := propagates_loudnessSetMuted be true w
  rcases hp : loudnessSetMuted be true w with ⟨_ | _, w1⟩ <;> rw [hp] at h
  · simpa [mute, hp] using h.logError _
  · simpa [mute, hp] using h

theorem propagates_unmute (be : AudioBackend σ) (w : World σ) : Propagates w (unmute be w) := by
  have h := propagates_loudnessSetMuted be false w
  rcases hp : loudnessSetMuted be false w with ⟨_ | _, w1⟩ <;> rw [hp] at h
  · simpa [unmute, hp] using h.logError _
  · simpa [unmute, hp] using h

theorem propagates_increaseVolume (be : AudioBackend σ) (w : World σ) :
    Propagates w (increaseVolume be w) := by
  have h := propagates_loudnessGetVolume be w
  rcases hp : loudnessGetVolume be w with ⟨m | v, w1⟩ <;> rw [hp] at h
  · simpa [increaseVolume, hp] using h.logError _
  · have h' := propagates_loudnessSetVolume be (min 100 (v + 10)) w1
    rcases hq : loudnessSetVolume be (min 100 (v + 10)) w1 with ⟨_ | _, w2⟩ <;> rw [hq] at h'
    · simpa [increaseVolume, hp, hq] using (h.seq h').logError _
    · simpa [increaseVolume, hp, hq] using h.seq h'

theorem propagates_decreaseVolume (be : AudioBackend σ) (w : World σ) :
    Propagates w (decreaseVolume be w) := by
  have h := propagates_loudnessGetVolume be w
  rcases hp : loudnessGetVolume be w with ⟨m | v, w1⟩ <;> rw [hp] at h
  · simpa [decreaseVolume, hp] using h.logError _
  · have h' := propagates_loudnessSetVolume be (max 0 (v - 10)) w1
    rcases hq : loudnessSetVolume be (max 0 (v - 10)) w1 with ⟨_ | _, w2⟩ <;> rw [hq] at h'
    · simpa [decreaseVolume, hp, hq] using (h.seq h').logError _
    · simpa [decreaseVolume, hp, hq] using h.seq h'

theorem propagates_callTool (be : AudioBackend σ) (name args : JsVal) (w : World σ) :
    Propagates w (callTool be name args w) := by
  unfold callTool
  split_ifs
  · have h := propagates_getCurrentVolume be w
    rcases hp : getCurrentVolume be w with ⟨m | v, w1⟩ <;> rw [hp] at h
    · dsimp only; exact h.rethrow
    · dsimp only; exact h.done _
  · cases hd : destructureVolume args with
    | error m => dsimp only; exact Propagates.refl w _
    | ok newVolume =>
      dsimp only
      cases hv : validVolume newVolume with
      | none => dsimp only; exact Propagates.refl w _
      | some q =>
        dsimp only
        have h := propagates_setVolume be q w
        rcases hp : setVolume be q w with ⟨m | v, w1⟩ <;> rw [hp] at h
        · dsimp only; exact h.rethrow
        · dsimp only; exact h.done _
  · have h := propagates_getMuteStatus be w
    rcases hp : getMuteStatus be w with ⟨m | v, w1⟩ <;> rw [hp] at h
    · dsimp only; exact h.rethrow
    · dsimp only; exact h.done _
  · have h := propagates_mute be w
    rcases hp : mute be w with ⟨m | v, w1⟩ <;> rw [hp] at h
    · dsimp only; exact h.rethrow
    · dsimp only; exact h.done _
  · have h := propagates_unmute be w
    rcases hp : unmute be w with ⟨m | v, w1⟩ <;> rw [hp] at h
    · dsimp only; exact h.rethrow
    · dsimp only; exact h.done _
  · have h := propagates_getCurrentVolume be w
    rcases hp : getCurrentVolume be w with ⟨m | v, w1⟩ <;> rw [hp] at h
    · dsimp only; exact h.rethrow
    · dsimp only
      have h2 := propagates_increaseVolume be w1
      rcases hq : increaseVolume be w1 with ⟨m | u, w2⟩ <;> rw [hq] at h2
      · dsimp only; exact (h.seq h2).rethrow
      · dsimp only
        have h3 := propagates_getCurrentVolume be w2
        rcases hr : getCurrentVolume be w2 with ⟨m | v', w3⟩ <;> rw [hr] at h3
        · dsimp only; exact (h.seq (h2.seq h3)).rethrow
        · dsimp only; exact (h.seq (h2.seq h3)).done _
  · have h := propagates_getCurrentVolume be w
    rcases hp : getCurrentVolume be w with ⟨m | v, w1⟩ <;> rw [hp] at h
    · dsimp only; exact h.rethrow
    · dsimp only
      have h2 := propagates_decreaseVolume be w1
      rcases hq : decreaseVolume be w1 with ⟨m | u, w2⟩ <;> rw [hq] at h2
      · dsimp only; exact (h.seq h2).rethrow
      · dsimp only
        have h3 := propagates_getCurrentVolume be w2
        rcases hr : getCurrentVolume be w2 with ⟨m | v', w3⟩ <;> rw [hr] at h3
        · dsimp only; exact (h.seq (h2.seq h3)).rethrow
        · dsimp only; exact (h.seq (h2.seq h3)).done _
  · cases templateText name with
    | error m => dsimp only; exact Propagates.refl w _
    | ok t => dsimp only; exact Propagates.refl w _

theorem strictEq_of_ne {v : JsVal} {s t : String} (h : strictEq v s = true) (hst : s ≠ t) :
    strictEq v t = false := by
  unfold strictEq at *
  split at h
  · simp only [beq_iff_eq] at h
    subst h
    simpa using hst
  · simp at h

theorem isToolsCall_request (id : Json) (name : String) (args : JsVal) :
    IsToolsCall (toolsCallRequest id name args) (some (.str name)) args := by
  cases args with
  | none =>
    exact ⟨by simp [toolsCallRequest, propOf, lookupKey, strictEq],
      .obj [("name", .str name)], by simp [toolsCallRequest, propOf, lookupKey], by simp,
      by simp [propOf, lookupKey], by simp [propOf, lookupKey]⟩
  | some a =>
    exact ⟨by simp [toolsCallRequest, propOf, lookupKey, strictEq],
      .obj [("name", .str name), ("arguments", a)],
      by simp [toolsCallRequest, propOf, lookupKey], by simp,
      by simp [propOf, lookupKey], by simp [propOf, lookupKey]⟩

theorem getProp_method {message : Json} {s : String}
    (h : strictEq (propOf message "method") s = true) :
    getProp message "method" = .ok (propOf message "method") := by
  cases message <;> simp [getProp, propOf, strictEq] at h ⊢

theorem onMessage_toolsCall (be : AudioBackend σ) (w : World σ) {message : Json}
    {name args : JsVal} (h : IsToolsCall message name args) :
    onMessage be message w = toolsCall be (propOf message "id") name args w := by
  obtain ⟨hm, params, hp, hn, rfl, rfl⟩ := h
  have h1 := strictEq_of_ne hm (t := "initialize") (by decide)
  have h2 := strictEq_of_ne hm (t := "tools/list") (by decide)
  have hg := getProp_method hm
  cases params <;> first
    | exact absurd rfl hn
    | simp [onMessage, dispatch, hg, h1, h2, hm, hp]

theorem toolsCall_stdout (be : AudioBackend σ) (id name args : JsVal) (w : World σ) :
    ∃ result, (toolsCall be id name args w).stdout = w.stdout ++ [response id result] := by
  have h := (propagates_callTool be name args w).1
  unfold toolsCall
  rcases hc : callTool be name args w with ⟨m | ⟨text, data⟩, w1⟩ <;> rw [hc] at h <;>
    simp only at h
  · exact ⟨toolResult ("Error: " ++ m)
      (.obj [("error", .str m), ("errorCode", .num (-32603))]) true, by simp only [writeLine, h]⟩
  · exact ⟨toolResult text data false, by simp only [writeLine, h]⟩

theorem numToString_intCast (n : ℤ) : numToString (n : ℚ) = toString n := by
  simp [numToString]

theorem onMessage_cases (be : AudioBackend σ) (w : World σ) (message : Json) :
    (∃ line, onMessage be message w = logError w line) ∨
    (∃ result, (result = initializeResult ∨ result = .obj [("tools", .arr toolCatalog)] ∨
        result = .obj []) ∧
      onMessage be message w = writeLine w (response (propOf message "id") result)) ∨
    (∃ name args, IsToolsCall message name args ∧
      onMessage be message w = toolsCall be (propOf message "id") name args w) := by
  by_cases hnull : message = Json.null
  · subst hnull
    exact .inl ⟨"Error processing message: Cannot read properties of null (reading 'method')",
      by simp [onMessage, dispatch, getProp]⟩
  have hg : getProp message "method" = .ok (propOf message "method") := by
    cases message <;> first | exact absurd rfl hnull | rfl
  by_cases h1 : strictEq (propOf message "method") "initialize" = true
  · exact .inr (.inl ⟨_, .inl rfl, by simp [onMessage, dispatch, hg, h1]⟩)
  by_cases h2 : strictEq (propOf message "method") "tools/list" = true
  · exact .inr (.inl ⟨_, .inr (.inl rfl), by simp [onMessage, dispatch, hg, h1, h2]⟩)
  by_cases h3 : strictEq (propOf message "method") "tools/call" = true
  · cases hp : propOf message "params" with
    | none =>
      exact .inl ⟨"Error processing message: Cannot destructure property 'name' of 'message.params' as it is undefined.",
        by simp [onMessage, dispatch, hg, h1, h2, h3, hp]⟩
    | some params =>
      by_cases hn : params = Json.null
      · subst hn
        exact .inl ⟨"Error processing message: Cannot destructure property 'name' of 'message.params' as it is null.",
          by simp [onMessage, dispatch, hg, h1, h2, h3, hp]⟩
      · exact .inr (.inr ⟨_, _, ⟨h3, params, hp, hn, rfl, rfl⟩,
          onMessage_toolsCall be w ⟨h3, params, hp, hn, rfl, rfl⟩⟩)
  · exact .inr (.inl ⟨_, .inr (.inr rfl), by simp [onMessage, dispatch, hg, h1, h2, h3]⟩)

theorem reportedVolumes_response (id : JsVal) (text : String) (content : Json) (isError : Bool) :
    reportedVolumes (response id (toolResult text content isError)) =
      if isError then [] else
        ["volume", "previousVolume", "newVolume"].filterMap (propOf content) := by
  cases id <;> cases isError <;>
    simp [reportedVolumes, successContent, response, toolResult, propOf, lookupKey]

theorem reportedVolumes_plain (id : JsVal) (result : Json)
    (h : propOf result "isError" = none) : reportedVolumes (response id result) = [] := by
  have hr : propOf (response id result) "result" = some result := by
    cases id <;> simp [response, propOf, lookupKey]
  simp [reportedVolumes, successContent, hr, h]

theorem toolName_of_isToolsCall {message : Json} {name args : JsVal}
    (h : IsToolsCall message name args) : toolName message = name := by
  obtain ⟨_, params, hp, _, rfl, _⟩ := h
  simp [toolName, hp]

theorem validVolume_bounds {x : JsVal} {q : JsNum} (h : validVolume x = some q) :
    0 ≤ q ∧ q ≤ 100 := by
  unfold validVolume at h
  split at h
  · next v =>
    split at h
    · simp at h
    · next hn =>
      simp only [Option.some.injEq] at h
      subst h
      exact ⟨not_lt.1 fun h' => hn (.inl h'), not_lt.1 fun h' => hn (.inr h')⟩
  · simp at h

theorem toolsCall_ideal_volumes (w : World Device) (id name args : JsVal) (n : ℤ)
    (hv : w.device.volume = (n : ℚ)) (h0 : 0 ≤ n) (h100 : n ≤ 100) :
    (∀ v ∈ writtenVolumes ((toolsCall idealBackend id name args w).calls.drop w.calls.length),
      0 ≤ v ∧ v ≤ 100 ∧ ((∃ k : ℤ, (k : ℚ) = v) ∨ strictEq name "set_volume" = true)) ∧
    (∀ line ∈ (toolsCall idealBackend id name args w).stdout.drop w.stdout.length,
      ∀ x ∈ reportedVolumes line, ∃ v, x = .num v ∧ 0 ≤ v ∧ v ≤ 100 ∧
        ((∃ k : ℤ, (k : ℚ) = v) ∨ strictEq name "set_volume" = true)) := by
  have hn0 : (0 : ℚ) ≤ n := by exact_mod_cast h0
  have hn100 : (n : ℚ) ≤ 100 := by exact_mod_cast h100
  by_cases c1 : strictEq name "get_current_volume" = true
  · simp [toolsCall, callTool, c1, getCurrentVolume, loudnessGetVolume, idealBackend, writeLine,
      writtenVolumes, reportedVolumes_response, propOf, lookupKey, hv, hn0, hn100]
  by_cases c2 : strictEq name "set_volume" = true
  · cases hd : destructureVolume args with
    | error m =>
      simp [toolsCall, callTool, c1, c2, hd, writeLine, writtenVolumes,
        reportedVolumes_response]
    | ok newVolume =>
      cases hq : validVolume newVolume with
      | none =>
        simp [toolsCall, callTool, c1, c2, hd, hq, writeLine, writtenVolumes,
          reportedVolumes_response]
      | some q =>
        obtain ⟨hq0, hq100⟩ := validVolume_bounds hq
        have hclamp : max 0 (min 100 q) = q := by
          rw [min_eq_right hq100, max_eq_right hq0]
        simp [toolsCall, callTool, c1, c2, hd, hq, setVolume, loudnessSetVolume, idealBackend,
          writeLine, writtenVolumes, reportedVolumes_response, propOf, lookupKey, hclamp, hq0,
          hq100]
  by_cases c3 : strictEq name "get_mute_status" = true
  · simp [toolsCall, callTool, c1, c2, c3, getMuteStatus, loudnessGetMuted, idealBackend,
      writeLine, writtenVolumes, reportedVolumes_response, propOf, lookupKey]
  by_cases c4 : strictEq name "mute_system" = true
  · simp [toolsCall, callTool, c1, c2, c3, c4, mute, loudnessSetMuted, idealBackend,
      writeLine, writtenVolumes, reportedVolumes_response, propOf, lookupKey]
  by_cases c5 : strictEq name "unmute_system" = true
  · simp [toolsCall, callTool, c1, c2, c3, c4, c5, unmute, loudnessSetMuted, idealBackend,
      writeLine, writtenVolumes, reportedVolumes_response, propOf, lookupKey]
  by_cases c6 : strictEq name "increase_volume" = true
  · have hmin : min (100 : ℚ) ((n : ℚ) + 10) = ((min 100 (n + 10) : ℤ) : ℚ) := by
      push_cast
      rfl
    simp only [toolsCall, callTool, c1, c2, c3, c4, c5, c6, getCurrentVolume, increaseVolume,
      loudnessGetVolume, loudnessSetVolume, idealBackend, writeLine, hv]
    simp [writtenVolumes, reportedVolumes_response, propOf, lookupKey, hn0, hn100]
    exact ⟨by linarith, _, hmin.symm⟩
  by_cases c7 : strictEq name "decrease_volume" = true
  · have hmax : max (0 : ℚ) ((n : ℚ) - 10) = ((max 0 (n - 10) : ℤ) : ℚ) := by
      push_cast
      rfl
    simp only [toolsCall, callTool, c1, c2, c3, c4, c5, c6, c7, getCurrentVolume,
      decreaseVolume, loudnessGetVolume, loudnessSetVolume, idealBackend, writeLine, hv]
    simp [writtenVolumes, reportedVolumes_response, propOf, lookupKey, hn0, hn100]
    exact ⟨by linarith, _, hmax.symm⟩
  · cases ht : templateText name <;>
      simp [toolsCall, callTool, c1, c2, c3, c4, c5, c6, c7, ht, writeLine, writtenVolumes,
        reportedVolumes_response]

theorem SameButStderr.log_both {w w' : World σ} (h : SameButStderr w w') (l l' : String) :
    SameButStderr (logError w l) (logError w' l') := h

theorem SameButStderr.write_both {w w' : World σ} (h : SameButStderr w w') (r : Json) :
    SameButStderr (writeLine w r) (writeLine w' r) :=
  ⟨h.1, h.2.1, by simp [VolumeMcp.writeLine, h.2.2]⟩

theorem agree_loudnessGetVolume (be : AudioBackend σ) {w w' : World σ}
    (h : SameButStderr w w') : Agree (loudnessGetVolume be w) (loudnessGetVolume be w') := by
  obtain ⟨h1, h2, h3⟩ := h
  simp [Agree, SameButStderr, loudnessGetVolume, h1, h2, h3]

theorem agree_loudnessSetVolume (be : AudioBackend σ) (v : JsNum) {w w' : World σ}
    (h : SameButStderr w w') :
    Agree (loudnessSetVolume be v w) (loudnessSetVolume be v w') := by
  obtain ⟨h1, h2, h3⟩ := h
  simp [Agree, SameButStderr, loudnessSetVolume, h1, h2, h3]

theorem agree_loudnessGetMuted (be : AudioBackend σ) {w w' : World σ}
    (h : SameButStderr w w') : Agree (loudnessGetMuted be w) (loudnessGetMuted be w') := by
  obtain ⟨h1, h2, h3⟩ := h
  simp [Agree, SameButStderr, loudnessGetMuted, h1, h2, h3]

theorem agree_loudnessSetMuted (be : AudioBackend σ) (b : Bool) {w w' : World σ}
    (h : SameButStderr w w') :
    Agree (loudnessSetMuted be b w) (loudnessSetMuted be b w') := by
  obtain ⟨h1, h2, h3⟩ := h
  simp [Agree, SameButStderr, loudnessSetMuted, h1, h2, h3]

theorem agree_getCurrentVolume (be : AudioBackend σ) {w w' : World σ}
    (h : SameButStderr w w') : Agree (getCurrentVolume be w) (getCurrentVolume be w') := by
  have h' := agree_loudnessGetVolume be h
  unfold getCurrentVolume
  rcases hp : loudnessGetVolume be w with ⟨r, w1⟩
  rcases hq : loudnessGetVolume be w' with ⟨r', w1'⟩
  rw [hp, hq] at h'
  obtain ⟨h1, h2⟩ := h'
  simp only at h1 h2
  subst h1
  cases r <;> first | exact ⟨rfl, h2.log_both _ _⟩ | exact ⟨rfl, h2⟩

theorem agree_setVolume (be : AudioBackend σ) (v : JsNum) {w w' : World σ}
    (h : SameButStderr w w') : Agree (setVolume be v w) (setVolume be v w') := by
  have h' := agree_loudnessSetVolume be (max 0 (min 100 v)) h
  unfold setVolume
  rcases hp : loudnessSetVolume be (max 0 (min 100 v)) w with ⟨r, w1⟩
  rcases hq : loudnessSetVolume be (max 0 (min 100 v)) w' with ⟨r', w1'⟩
  rw [hp, hq] at h'
  obtain ⟨h1, h2⟩ := h'
  simp only at h1 h2
  subst h1
  cases r <;> first | exact ⟨rfl, h2.log_both _ _⟩ | exact ⟨rfl, h2⟩

theorem agree_getMuteStatus (be : AudioBackend σ) {w w' : World σ}
    (h : SameButStderr w w') : Agree (getMuteStatus be w) (getMuteStatus be w') := by
  have h' := agree_loudnessGetMuted be h
  unfold getMuteStatus
  rcases hp : loudnessGetMuted be w with ⟨r, w1⟩
  rcases hq : loudnessGetMuted be w' with ⟨r', w1'⟩
  rw [hp, hq] at h'
  obtain ⟨h1, h2⟩ := h'
  simp only at h1 h2
  subst h1
  cases r <;> first | exact ⟨rfl, h2.log_both _ _⟩ | exact ⟨rfl, h2⟩

theorem agree_mute (be : AudioBackend σ) {w w' : World σ}
    (h : SameButStderr w w') : Agree (mute be w) (mute be w') := by
  have h' := agree_loudnessSetMuted be true h
  unfold mute
  rcases hp : loudnessSetMuted be true w with ⟨r, w1⟩
  rcases hq : loudnessSetMuted be true w' with ⟨r', w1'⟩
  rw [hp, hq] at h'
  obtain ⟨h1, h2⟩ := h'
  simp only at h1 h2
  subst h1
  cases r <;> first | exact ⟨rfl, h2.log_both _ _⟩ | exact ⟨rfl, h2⟩

theorem agree_unmute (be : AudioBackend σ) {w w' : World σ}
    (h : SameButStderr w w') : Agree (unmute be w) (unmute be w') := by
  have h' := agree_loudnessSetMuted be false h
  unfold unmute
  rcases hp : loudnessSetMuted be false w with ⟨r, w1⟩
  rcases hq : loudnessSetMuted be false w' with ⟨r', w1'⟩
  rw [hp, hq] at h'
  obtain ⟨h1, h2⟩ := h'
  simp only at h1 h2
  subst h1
  cases r <;> first | exact ⟨rfl, h2.log_both _ _⟩ | exact ⟨rfl, h2⟩

theorem agree_increaseVolume (be : AudioBackend σ) {w w' : World σ}
    (h : SameButStderr w w') : Agree (increaseVolume be w) (increaseVolume be w') := by
  have h' := agree_loudnessGetVolume be h
  unfold increaseVolume
  rcases hp : loudnessGetVolume be w with ⟨r, w1⟩
  rcases hq : loudnessGetVolume be w' with ⟨r', w1'⟩
  rw [hp, hq] at h'
  obtain ⟨h1, h2⟩ := h'
  simp only at h1 h2
  subst h1
  cases r with
  | error m => exact ⟨rfl, h2.log_both _ _⟩
  | ok v =>
    dsimp only
    have h'' := agree_loudnessSetVolume be (min 100 (v + 10)) h2
    rcases hp2 : loudnessSetVolume be (min 100 (v + 10)) w1 with ⟨r2, w2⟩
    rcases hq2 : loudnessSetVolume be (min 100 (v + 10)) w1' with ⟨r2', w2'⟩
    rw [hp2, hq2] at h''
    obtain ⟨k1, k2⟩ := h''
    simp only at k1 k2
    subst k1
    cases r2 <;> first | exact ⟨rfl, k2.log_both _ _⟩ | exact ⟨rfl, k2⟩

theorem agree_decreaseVolume (be : AudioBackend σ) {w w' : World σ}
    (h : SameButStderr w w') : Agree (decreaseVolume be w) (decreaseVolume be w') := by
  have h' := agree_loudnessGetVolume be h
  unfold decreaseVolume
  rcases hp : loudnessGetVolume be w with ⟨r, w1⟩
  rcases hq : loudnessGetVolume be w' with ⟨r', w1'⟩
  rw [hp, hq] at h'
  obtain ⟨h1, h2⟩ := h'
  simp only at h1 h2
  subst h1
  cases r with
  | error m => exact ⟨rfl, h2.log_both _ _⟩
  | ok v =>
    dsimp only
    have h'' := agree_loudnessSetVolume be (max 0 (v - 10)) h2
    rcases hp2 : loudnessSetVolume be (max 0 (v - 10)) w1 with ⟨r2, w2⟩
    rcases hq2 : loudnessSetVolume be (max 0 (v - 10)) w1' with ⟨r2', w2'⟩
    rw [hp2, hq2] at h''
    obtain ⟨k1, k2⟩ := h''
    simp only at k1 k2
    subst k1
    cases r2 <;> first | exact ⟨rfl, k2.log_both _ _⟩ | exact ⟨rfl, k2⟩

theorem agree_callTool (be : AudioBackend σ) (name args : JsVal) {w w' : World σ}
    (h : SameButStderr w w') :
    Agree (callTool be name args w) (callTool be name args w') := by
  unfold callTool
  split_ifs
  · have a1 := agree_getCurrentVolume be h
    rcases hp1 : getCurrentVolume be w with ⟨r1, u1⟩
    rcases hq1 : getCurrentVolume be w' with ⟨s1, v1⟩
    rw [hp1, hq1] at a1
    obtain ⟨e1, g1⟩ := a1
    simp only at e1 g1
    subst e1
    cases r1 <;> exact ⟨rfl, g1⟩
  · cases destructureVolume args with
    | error m => exact ⟨rfl, h⟩
    | ok newVolume =>
      dsimp only
      cases validVolume newVolume with
      | none => exact ⟨rfl, h⟩
      | some q =>
        dsimp only
        have a1 := agree_setVolume be q h
        rcases hp1 : setVolume be q w with ⟨r1, u1⟩
        rcases hq1 : setVolume be q w' with ⟨s1, v1⟩
        rw [hp1, hq1] at a1
        obtain ⟨e1, g1⟩ := a1
        simp only at e1 g1
        subst e1
        cases r1 <;> exact ⟨rfl, g1⟩
  · have a1 := agree_getMuteStatus be h
    rcases hp1 : getMuteStatus be w with ⟨r1, u1⟩
    rcases hq1 : getMuteStatus be w' with ⟨s1, v1⟩
    rw [hp1, hq1] at a1
    obtain ⟨e1, g1⟩ := a1
    simp only at e1 g1
    subst e1
    cases r1 <;> exact ⟨rfl, g1⟩
  · have a1 := agree_mute be h
    rcases hp1 : mute be w with ⟨r1, u1⟩
    rcases hq1 : mute be w' with ⟨s1, v1⟩
    rw [hp1, hq1] at a1
    obtain ⟨e1, g1⟩ := a1
    simp only at e1 g1
    subst e1
    cases r1 <;> exact ⟨rfl, g1⟩
  · have a1 := agree_unmute be h
    rcases hp1 : unmute be w with ⟨r1, u1⟩
    rcases hq1 : unmute be w' with ⟨s1, v1⟩
    rw [hp1, hq1] at a1
    obtain ⟨e1, g1⟩ := a1
    simp only at e1 g1
    subst e1
    cases r1 <;> exact ⟨rfl, g1⟩
  · have a1 := agree_getCurrentVolume be h
    rcases hp1 : getCurrentVolume be w with ⟨r1, u1⟩
    rcases hq1 : getCurrentVolume be w' with ⟨s1, v1⟩
    rw [hp1, hq1] at a1
    obtain ⟨e1, g1⟩ := a1
    simp only at e1 g1
    subst e1
    cases r1 with
    | error m => exact ⟨rfl, g1⟩
    | ok x1 =>
      dsimp only
      have a2 := agree_increaseVolume be g1
      rcases hp2 : increaseVolume be u1 with ⟨r2, u2⟩
      rcases hq2 : increaseVolume be v1 with ⟨s2, v2⟩
      rw [hp2, hq2] at a2
      obtain ⟨e2, g2⟩ := a2
      simp only at e2 g2
      subst e2
      cases r2 with
      | error m => exact ⟨rfl, g2⟩
      | ok x2 =>
        dsimp only
        have a3 := agree_getCurrentVolume be g2
        rcases hp3 : getCurrentVolume be u2 with ⟨r3, u3⟩
        rcases hq3 : getCurrentVolume be v2 with ⟨s3, v3⟩
        rw [hp3, hq3] at a3
        obtain ⟨e3, g3⟩ := a3
        simp only at e3 g3
        subst e3
        cases r3 <;> exact ⟨rfl, g3⟩
  · have a1 := agree_getCurrentVolume be h
    rcases hp1 : getCurrentVolume be w with ⟨r1, u1⟩
    rcases hq1 : getCurrentVolume be w' with ⟨s1, v1⟩
    rw [hp1, hq1] at a1
    obtain ⟨e1, g1⟩ := a1
    simp only at e1 g1
    subst e1
    cases r1 with
    | error m => exact ⟨rfl, g1⟩
    | ok x1 =>
      dsimp only
      have a2 := agree_decreaseVolume be g1
      rcases hp2 : decreaseVolume be u1 with ⟨r2, u2⟩
      rcases hq2 : decreaseVolume be v1 with ⟨s2, v2⟩
      rw [hp2, hq2] at a2
      obtain ⟨e2, g2⟩ := a2
      simp only at e2 g2
      subst e2
      cases r2 with
      | error m => exact ⟨rfl, g2⟩
      | ok x2 =>
        dsimp only
        have a3 := agree_getCurrentVolume be g2
        rcases hp3 : getCurrentVolume be u2 with ⟨r3, u3⟩
        rcases hq3 : getCurrentVolume be v2 with ⟨s3, v3⟩
        rw [hp3, hq3] at a3
        obtain ⟨e3, g3⟩ := a3
        simp only at e3 g3
        subst e3
        cases r3 <;> exact ⟨rfl, g3⟩
  · cases templateText name <;> exact ⟨rfl, h⟩

theorem same_toolsCall (be : AudioBackend σ) (id name args : JsVal) {w w' : World σ}
    (h : SameButStderr w w') :
    SameButStderr (toolsCall be id name args w) (toolsCall be id name args w') := by
  have a := agree_callTool be name args h
  unfold toolsCall
  rcases hp : callTool be name args w with ⟨r, u⟩
  rcases hq : callTool be name args w' with ⟨s, v⟩
  rw [hp, hq] at a
  obtain ⟨e, g⟩ := a
  simp only at e g
  subst e
  rcases r with m | ⟨text, data⟩ <;> exact g.write_both _

theorem onMessage_shape (be : AudioBackend σ) (message : Json) :
    (∃ line, ∀ w : World σ, onMessage be message w = logError w line) ∨
    (∃ result, ∀ w : World σ,
      onMessage be message w = writeLine w (response (propOf message "id") result)) ∨
    (∃ name args, IsToolsCall message name args) := by
  by_cases hnull : message = Json.null
  · subst hnull
    exact .inl ⟨"Error processing message: Cannot read properties of null (reading 'method')",
      fun w => by simp [onMessage, dispatch, getProp]⟩
  have hg : getProp message "method" = .ok (propOf message "method") := by
    cases message <;> first | exact absurd rfl hnull | rfl
  by_cases h1 : strictEq (propOf message "method") "initialize" = true
  · exact .inr (.inl ⟨initializeResult, fun w => by simp [onMessage, dispatch, hg, h1]⟩)
  by_cases h2 : strictEq (propOf message "method") "tools/list" = true
  · exact .inr (.inl ⟨.obj [("tools", .arr toolCatalog)],
      fun w => by simp [onMessage, dispatch, hg, h1, h2]⟩)
  by_cases h3 : strictEq (propOf message "method") "tools/call" = true
  · cases hp : propOf message "params" with
    | none =>
      exact .inl ⟨"Error processing message: Cannot destructure property 'name' of 'message.params' as it is undefined.",
        fun w => by simp [onMessage, dispatch, hg, h1, h2, h3, hp]⟩
    | some params =>
      by_cases hn : params = Json.null
      · subst hn
        exact .inl ⟨"Error processing message: Cannot destructure property 'name' of 'message.params' as it is null.",
          fun w => by simp [onMessage, dispatch, hg, h1, h2, h3, hp]⟩
      · exact .inr (.inr ⟨_, _, ⟨h3, params, hp, hn, rfl, rfl⟩⟩)
  · exact .inr (.inl ⟨.obj [], fun w => by simp [onMessage, dispatch, hg, h1, h2, h3]⟩)

theorem same_onMessage (be : AudioBackend σ) (message : Json) {w w' : World σ}
    (h : SameButStderr w w') :
    SameButStderr (onMessage be message w) (onMessage be message w') := by
  rcases onMessage_shape be message with ⟨l, hl⟩ | ⟨result, hr⟩ | ⟨name, args, hc⟩
  · rw [hl, hl]
    exact h.log_both _ _
  · rw [hr, hr]
    exact h.write_both _
  · rw [onMessage_toolsCall be w hc, onMessage_toolsCall be w' hc]
    exact same_toolsCall be _ name args h

theorem same_onLine (parse : String → Except String Json) (be : AudioBackend σ)
    (line : String) {w w' : World σ} (h : SameButStderr w w') :
    SameButStderr (onLine parse be line w) (onLine parse be line w') := by
  unfold onLine
  cases parse line with
  | error m => exact h.log_both _ _
  | ok message => exact same_onMessage be message h

theorem getProp_of_ne_null {message : Json} (h : message ≠ Json.null) (k : String) :
    getProp message k = .ok (propOf message k) := by
  cases message <;> first | exact absurd rfl h | rfl

theorem getCurrentVolume_ok (be : AudioBackend σ) (w : World σ) {v : JsNum}
    (h : (be.getVolume w.device).1 = .ok v) :
    ∃ w1, getCurrentVolume be w = (.ok v, w1) ∧
      w1.calls = w.calls ++ [Call.getVolume (.ok v)] ∧ w1.stdout = w.stdout ∧
      w1.device = (be.getVolume w.device).2 ∧ w1.stderr = w.stderr :=
  ⟨{ w with device := (be.getVolume w.device).2,
             calls := w.calls ++ [Call.getVolume (.ok v)] },
    by simp only [getCurrentVolume, loudnessGetVolume, h], rfl, rfl, rfl, rfl⟩

theorem increaseVolume_ok (be : AudioBackend σ) (w : World σ) {v : JsNum}
    (h : (be.getVolume w.device).1 = .ok v)
    (hs : (be.setVolume (min 100 (v + 10)) (be.getVolume w.device).2).1 = .ok ()) :
    ∃ w1, increaseVolume be w = (.ok (), w1) ∧
      w1.calls = w.calls ++
        [Call.getVolume (.ok v), Call.setVolume (min 100 (v + 10)) (.ok ())] ∧
      w1.stdout = w.stdout ∧
      w1.device = (be.setVolume (min 100 (v + 10)) (be.getVolume w.device).2).2 ∧
      w1.stderr = w.stderr :=
  ⟨{ w with device := (be.setVolume (min 100 (v + 10)) (be.getVolume w.device).2).2,
             calls := w.calls ++
               [Call.getVolume (.ok v), Call.setVolume (min 100 (v + 10)) (.ok ())] },
    by simp [increaseVolume, loudnessGetVolume, loudnessSetVolume, h, hs], rfl, rfl, rfl, rfl⟩

theorem decreaseVolume_ok (be : AudioBackend σ) (w : World σ) {v : JsNum}
    (h : (be.getVolume w.device).1 = .ok v)
    (hs : (be.setVolume (max 0 (v - 10)) (be.getVolume w.device).2).1 = .ok ()) :
    ∃ w1, decreaseVolume be w = (.ok (), w1) ∧
      w1.calls = w.calls ++
        [Call.getVolume (.ok v), Call.setVolume (max 0 (v - 10)) (.ok ())] ∧
      w1.stdout = w.stdout ∧
      w1.device = (be.setVolume (max 0 (v - 10)) (be.getVolume w.device).2).2 ∧
      w1.stderr = w.stderr :=
  ⟨{ w with device := (be.setVolume (max 0 (v - 10)) (be.getVolume w.device).2).2,
             calls := w.calls ++
               [Call.getVolume (.ok v), Call.setVolume (max 0 (v - 10)) (.ok ())] },
    by simp [decreaseVolume, loudnessGetVolume, loudnessSetVolume, h, hs], rfl, rfl, rfl, rfl⟩

theorem toolsCall_ideal_device (w : World Device) (id name args : JsVal) :
    ((strictEq name "set_volume" = false ∧ strictEq name "increase_volume" = false ∧
        strictEq name "decrease_volume" = false ∧ strictEq name "mute_system" = false ∧
        strictEq name "unmute_system" = false) →
      (toolsCall idealBackend id name args w).device = w.device) ∧
    (strictEq name "set_volume" = true →
      (∀ a q, args = some a → propOf a "volume" = some (.num q) → q < 0 ∨ 100 < q) →
      (toolsCall idealBackend id name args w).device = w.device) ∧
    (strictEq name "mute_system" = false → strictEq name "unmute_system" = false →
      (toolsCall idealBackend id name args w).device.muted = w.device.muted) ∧
    (strictEq name "set_volume" = false → strictEq name "increase_volume" = false →
      strictEq name "decrease_volume" = false →
      (toolsCall idealBackend id name args w).device.volume = w.device.volume) := by
  by_cases c1 : strictEq name "get_current_volume" = true
  · have := strictEq_of_ne c1 (t := "set_volume") (by decide)
    simp [toolsCall, callTool, c1, getCurrentVolume, loudnessGetVolume, idealBackend, writeLine]
  by_cases c2 : strictEq name "set_volume" = true
  · have n4 := strictEq_of_ne c2 (t := "mute_system") (by decide)
    have n5 := strictEq_of_ne c2 (t := "unmute_system") (by decide)
    cases hd : destructureVolume args with
    | error m => simp [toolsCall, callTool, c1, c2, hd, writeLine]
    | ok newVolume =>
      cases hq : validVolume newVolume with
      | none => simp [toolsCall, callTool, c1, c2, hd, hq, writeLine]
      | some q =>
        have hbad : ¬ ∀ a q, args = some a → propOf a "volume" = some (.num q) →
            q < 0 ∨ 100 < q := by
          intro hall
          obtain ⟨h0, h100⟩ := validVolume_bounds hq
          unfold destructureVolume at hd
          split at hd
          · simp at hd
          · simp at hd
          · rename_i a _
            simp only [Except.ok.injEq] at hd
            subst hd
            unfold validVolume at hq
            split at hq
            · next v hv =>
              split at hq
              · simp at hq
              · simp only [Option.some.injEq] at hq
                subst hq
                rcases hall a v rfl hv with h | h
                · exact absurd h0 (not_le.2 h)
                · exact absurd h100 (not_le.2 h)
            · simp at hq
        simp [toolsCall, callTool, c1, c2, hd, hq, setVolume, loudnessSetVolume, idealBackend,
          writeLine, hbad]
  by_cases c3 : strictEq name "get_mute_status" = true
  · simp [toolsCall, callTool, c1, c2, c3, getMuteStatus, loudnessGetMuted, idealBackend,
      writeLine]
  by_cases c4 : strictEq name "mute_system" = true
  · have n6 := strictEq_of_ne c4 (t := "increase_volume") (by decide)
    have n7 := strictEq_of_ne c4 (t := "decrease_volume") (by decide)
    simp [toolsCall, callTool, c1, c2, c3, c4, mute, loudnessSetMuted, idealBackend, writeLine]
  by_cases c5 : strictEq name "unmute_system" = true
  · have n6 := strictEq_of_ne c5 (t := "increase_volume") (by decide)
    have n7 := strictEq_of_ne c5 (t := "decrease_volume") (by decide)
    simp [toolsCall, callTool, c1, c2, c3, c4, c5, unmute, loudnessSetMuted, idealBackend,
      writeLine]
  by_cases c6 : strictEq name "increase_volume" = true
  · simp [toolsCall, callTool, c1, c2, c3, c4, c5, c6, getCurrentVolume, increaseVolume,
      loudnessGetVolume, loudnessSetVolume, idealBackend, writeLine]
  by_cases c7 : strictEq name "decrease_volume" = true
  · simp [toolsCall, callTool, c1, c2, c3, c4, c5, c6, c7, getCurrentVolume, decreaseVolume,
      loudnessGetVolume, loudnessSetVolume, idealBackend, writeLine]
  · cases ht : templateText name <;>
      simp [toolsCall, callTool, c1, c2, c3, c4, c5, c6, c7, ht, writeLine]

theorem response_carries_id (be : AudioBackend σ) (w : World σ) (message i : Json)
    (hid : propOf message "id" = some i) (hwf : Answerable message) :
    ∃ result, (onMessage be message w).stdout =
      w.stdout ++ [Json.obj [("jsonrpc", .str "2.0"), ("id", i), ("result", result)]] := by
  obtain ⟨⟨fields, rfl⟩, hparams⟩ := hwf
  by_cases h1 : strictEq (propOf (.obj fields) "method") "initialize" = true
  · exact ⟨initializeResult, by simp [onMessage, dispatch, getProp, h1, hid, response, writeLine]⟩
  by_cases h2 : strictEq (propOf (.obj fields) "method") "tools/list" = true
  · exact ⟨.obj [("tools", .arr toolCatalog)],
      by simp [onMessage, dispatch, getProp, h1, h2, hid, response, writeLine]⟩
  by_cases h3 : strictEq (propOf (.obj fields) "method") "tools/call" = true
  · obtain ⟨params, hp, hn⟩ := hparams h3
    have ht := onMessage_toolsCall be w ⟨h3, params, hp, hn, rfl, rfl⟩
    obtain ⟨result, hr⟩ := toolsCall_stdout be (propOf (.obj fields) "id")
      (propOf params "name") (propOf params "arguments") w
    exact ⟨result, by rw [ht, hr, hid]; rfl⟩
  · exact ⟨.obj [], by simp [onMessage, dispatch, getProp, h1, h2, h3, hid, response, writeLine]⟩

theorem written_of_echoable {i : Json} (h : Echoable i) : written i = i := by
  induction h with
  | null => simp [written]
  | bool b => simp [written]
  | num n => simp [written]
  | str s => simp [written]
  | arr items _ ih =>
    have hl : ∀ l : List Json, (∀ x ∈ l, written x = x) → writtenItems l = l := by
      intro l
      induction l with
      | nil => intro _; simp [writtenItems]
      | cons x rest ihr =>
        intro hx
        simp only [writtenItems]
        rw [hx x (List.mem_cons_self _ _), ihr fun y hy => hx y (List.mem_cons_of_mem _ hy)]
    simp [written, hl items ih]

/-- For every finite number `v` and every backend, `setVolume(v)` makes exactly one
backend call, the write of `max(0, min(100, v))`; that value is in `[0, 100]`, and it is
`v` itself when `v` is already in `[0, 100]`, in particular for every value the
`set_volume` validation accepts. -/
theorem setVolume_writes_clamped (be : AudioBackend σ) (w : World σ) (v : JsNum) :
    (setVolume be v w).2.calls =
      w.calls ++ [Call.setVolume (max 0 (min 100 v))
        (be.setVolume (max 0 (min 100 v)) w.device).1] ∧
    0 ≤ max 0 (min 100 v) ∧ max 0 (min 100 v) ≤ 100 ∧
    (0 ≤ v → v ≤ 100 → max 0 (min 100 v) = v) ∧
    (∀ x : JsVal, validVolume x = some v → max 0 (min 100 v) = v) := by
  have hin : 0 ≤ v → v ≤ 100 → max 0 (min 100 v) = v := fun h0 h100 => by
    rw [min_eq_right h100, max_eq_right h0]
  refine ⟨?_, le_max_left _ _, max_le (by norm_num) (min_le_left _ _), hin, fun x hx => ?_⟩
  · simp only [setVolume, loudnessSetVolume]
    cases (be.setVolume (max 0 (min 100 v)) w.device).1 <;> rfl
  · exact hin (validVolume_bounds hx).1 (validVolume_bounds hx).2

theorem clampedVolume_finite (q : JsNum) :
    clampedVolume (.finite q) = .finite (max 0 (min 100 q)) := rfl

theorem clampedVolume_in_range (v : JsNumber) (hv : v ≠ .nan) :
    ∃ q : JsNum, clampedVolume v = .finite q ∧ 0 ≤ q ∧ q ≤ 100 := by
  cases v with
  | finite q =>
    exact ⟨_, rfl, le_max_left _ _, max_le (by norm_num) (min_le_left _ _)⟩
  | nan => exact absurd rfl hv
  | infinity negative =>
    cases negative
    · exact ⟨100, by simp [clampedVolume, mathMin, mathMax], by norm_num, le_refl _⟩
    · exact ⟨0, by simp [clampedVolume, mathMin, mathMax], le_refl _, by norm_num⟩

end Lemmas

/-! ### C1: one response per parsed line -/

/-- C1, evaluated where it fails. A `tools/call` request that carries no `params`
parses as JSON, yet handling it writes no response, for every backend and every
request id: the destructuring of `message.params` throws before the inner `try` is
entered, and the outer `catch` only writes a diagnostic to standard error. No backend
call is made. -/
theorem C1_tools_call_without_params_unanswered (be : AudioBackend σ) (w : World σ)
    (id : Json) :
    onMessage be (plainRequest id "tools/call") w =
      { w with stderr := w.stderr ++
        ["Error processing message: Cannot destructure property 'name' of 'message.params' as it is undefined."] } := by
  simp [onMessage, dispatch, plainRequest, getProp, propOf, lookupKey, strictEq, logError]

/-! ### C2: the response echoes the request id -/

/-- C2, as stated, fails. A request whose id is the numeral `1e999` is parsed with the
id `Infinity`; it is answered, and the line written carries `"id": null`, not the id
of the request. -/
theorem C2_infinite_id_counterexample :
    (onMessage idealBackend (plainRequest (.inf false) "ping")
        (freshWorld (Device.mk 50 false))).stdout.map written =
      [.obj [("jsonrpc", .str "2.0"), ("id", .null), ("result", .obj [])]] ∧
    ¬ ∃ result : Json,
      (onMessage idealBackend (plainRequest (.inf false) "ping")
          (freshWorld (Device.mk 50 false))).stdout.map written =
        [.obj [("jsonrpc", .str "2.0"), ("id", .inf false), ("result", result)]] := by
  have h : (onMessage idealBackend (plainRequest (.inf false) "ping")
      (freshWorld (Device.mk 50 false))).stdout.map written =
      [.obj [("jsonrpc", .str "2.0"), ("id", .null), ("result", .obj [])]] := by
    simp [onMessage, dispatch, plainRequest, getProp, propOf, lookupKey, strictEq, writeLine,
      response, freshWorld, written, writtenFields]
  refine ⟨h, ?_⟩
  rintro ⟨result, hr⟩
  rw [h] at hr
  simp at hr

/-- C2, amended. Every request the dispatcher can read (an object; with a `params`
value that is not `null` when its method is `tools/call`) whose parsed `id` is `i` is
answered by exactly one line, the object `{jsonrpc: "2.0", id: i, result}`, whatever
the method, the tool outcome and the backend. `JSON.stringify` writes it with
`jsonrpc` `"2.0"` and with the id `written i`, which is `i` itself for every id that is
`null`, a boolean, a string, a finite number or an array of such values (and `null`
for `Infinity`). -/
theorem C2_response_echoes_id (be : AudioBackend σ) (w : World σ) (message i : Json)
    (hid : propOf message "id" = some i) (hwf : Answerable message) :
    ∃ result,
      (onMessage be message w).stdout =
        w.stdout ++ [Json.obj [("jsonrpc", .str "2.0"), ("id", i), ("result", result)]] ∧
      written (Json.obj [("jsonrpc", .str "2.0"), ("id", i), ("result", result)]) =
        Json.obj [("jsonrpc", .str "2.0"), ("id", written i), ("result", written result)] ∧
      (Echoable i → written i = i) := by
  obtain ⟨result, hr⟩ := response_carries_id be w message i hid hwf
  exact ⟨result, hr, by simp [written, writtenFields], written_of_echoable⟩

/-- C2 (amended) at a request with a string id, on the error path of `tools/call`:
the line written carries the id `"req-7"`. -/
theorem C2_response_echoes_id_witness :
    ∃ result,
      (onMessage idealBackend (toolsCallRequest (.str "req-7") "nonexistent_tool" none)
          (freshWorld (Device.mk 50 false))).stdout.map written =
        [Json.obj [("jsonrpc", .str "2.0"), ("id", .str "req-7"), ("result", result)]] := by
  obtain ⟨result, h1, h2, h3⟩ := C2_response_echoes_id idealBackend
    (freshWorld (Device.mk 50 false))
    (toolsCallRequest (.str "req-7") "nonexistent_tool" none) (.str "req-7")
    (by simp [toolsCallRequest, propOf, lookupKey])
    ⟨⟨_, rfl⟩, fun _ => ⟨.obj [("name", .str "nonexistent_tool")],
      by simp [toolsCallRequest, propOf, lookupKey], by simp⟩⟩
  refine ⟨written result, ?_⟩
  rw [h1]
  simp only [freshWorld, List.nil_append, List.map_cons, List.map_nil, h2,
    h3 (Echoable.str "req-7")]

/-! ### C3: validation of `set_volume` -/

/-- C3. A `set_volume` call whose arguments value (anything but `null`) has a
`volume` that is missing, is not a number, or is a number below 0 or above 100 is
answered by the error result with the message
`Volume must be a number between 0 and 100` and code -32603, and changes nothing
else: no backend call is made and the device is untouched. Conversely a `volume`
that is a number in `[0, 100]` passes the validation: the setter is called with
it. -/
theorem C3_set_volume_validation (be : AudioBackend σ) (w : World σ) (message args : Json)
    (hcall : IsToolsCall message (some (.str "set_volume")) (some args))
    (hargs : args ≠ Json.null) :
    ((∀ q, propOf args "volume" = some (.num q) → q < 0 ∨ 100 < q) →
      onMessage be message w =
        { w with stdout := w.stdout ++ [response (propOf message "id")
          (.obj [("content", .arr [.obj [("type", .str "text"),
                    ("text", .str "Error: Volume must be a number between 0 and 100")]]),
                 ("structuredContent",
                    .obj [("error", .str "Volume must be a number between 0 and 100"),
                          ("errorCode", .num (-32603))]),
                 ("isError", .bool true)])] }) ∧
    (∀ q, propOf args "volume" = some (.num q) → 0 ≤ q → q ≤ 100 →
      (onMessage be message w).calls =
        w.calls ++ [Call.setVolume q (be.setVolume q w.device).1]) := by
  rw [onMessage_toolsCall be w hcall]
  have hd : destructureVolume (some args) = .ok (propOf args "volume") := by
    cases args <;> first | exact absurd rfl hargs | rfl
  constructor
  · intro hbad
    have hv : validVolume (propOf args "volume") = none := by
      unfold validVolume
      split
      · next q hq => simp [hbad q hq]
      · rfl
    simp [toolsCall, callTool, strictEq, hd, hv, writeLine, toolResult]
  · intro q hq h0 h100
    have hv : validVolume (propOf args "volume") = some q := by
      simp [validVolume, hq, not_lt.2 h0, not_lt.2 h100]
    have hclamp : max 0 (min 100 q) = q := by
      rw [min_eq_right h100, max_eq_right h0]
    simp only [toolsCall, callTool, strictEq, hd, hv, setVolume, loudnessSetVolume, hclamp]
    cases (be.setVolume q w.device).1 <;> simp [writeLine, logError]

/-- C3 at `volume = 150` (rejected, nothing written to the device) and at the bounds
`volume = 0` and `volume = 100` (accepted). -/
theorem C3_set_volume_validation_witness :
    onMessage idealBackend
        (toolsCallRequest (.num 1) "set_volume" (some (.obj [("volume", .num 150)])))
        (freshWorld (Device.mk 50 false)) =
      { device := Device.mk 50 false, calls := [], stderr := [],
        stdout := [.obj [("jsonrpc", .str "2.0"), ("id", .num 1),
          ("result", .obj [("content", .arr [.obj [("type", .str "text"),
                    ("text", .str "Error: Volume must be a number between 0 and 100")]]),
                 ("structuredContent",
                    .obj [("error", .str "Volume must be a number between 0 and 100"),
                          ("errorCode", .num (-32603))]),
                 ("isError", .bool true)])]] } ∧
    (onMessage idealBackend
        (toolsCallRequest (.num 2) "set_volume" (some (.obj [("volume", .num 0)])))
        (freshWorld (Device.mk 50 false))).calls = [Call.setVolume 0 (.ok ())] ∧
    (onMessage idealBackend
        (toolsCallRequest (.num 3) "set_volume" (some (.obj [("volume", .num 100)])))
        (freshWorld (Device.mk 50 false))).calls = [Call.setVolume 100 (.ok ())] :=
  ⟨((C3_set_volume_validation idealBackend (freshWorld (Device.mk 50 false)) _ _
      (isToolsCall_request (.num 1) "set_volume" (some (.obj [("volume", .num 150)])))
      (by simp)).1
      (by intro q hq; simp [propOf, lookupKey] at hq; subst hq; norm_num)),
   (C3_set_volume_validation idealBackend (freshWorld (Device.mk 50 false)) _ _
      (isToolsCall_request (.num 2) "set_volume" (some (.obj [("volume", .num 0)])))
      (by simp)).2 0 (by simp [propOf, lookupKey]) (by norm_num) (by norm_num),
   (C3_set_volume_validation idealBackend (freshWorld (Device.mk 50 false)) _ _
      (isToolsCall_request (.num 3) "set_volume" (some (.obj [("volume", .num 100)])))
      (by simp)).2 100 (by simp [propOf, lookupKey]) (by norm_num) (by norm_num)⟩

/-! ### C4: the tool catalog -/

/-- C4, as stated, fails: the `tools` array written for a `tools/list` request does
not have 6 entries (it has 7). -/
theorem C4_catalog_length_counterexample :
    ¬ ∃ tools : List Json,
      (onMessage idealBackend (plainRequest (.num 1) "tools/list")
          (freshWorld (Device.mk 50 false))).stdout =
        [.obj [("jsonrpc", .str "2.0"), ("id", .num 1),
               ("result", .obj [("tools", .arr tools)])]] ∧
      tools.length = 6 := by
  rintro ⟨tools, h, hlen⟩
  simp [onMessage, dispatch, plainRequest, getProp, propOf, lookupKey, strictEq, writeLine,
    response, freshWorld] at h
  subst h
  simp [toolCatalog] at hlen

/-- C4, amended. For every backend, every earlier history of the process and every
`tools/list` request (whatever its `params` and its id), the handler writes exactly
one response, whose `result.tools` is the static catalog, and changes nothing else
(no backend call, device untouched). The catalog has 7 entries, in the order of the
tool table of the specification, and each entry is an object with exactly the fields
`name`, `description` and `inputSchema`. -/
theorem C4_tools_list_catalog (be : AudioBackend σ) (w : World σ) (message : Json)
    (hm : strictEq (propOf message "method") "tools/list" = true) :
    onMessage be message w =
      { w with stdout := w.stdout ++
        [response (propOf message "id") (.obj [("tools", .arr toolCatalog)])] } ∧
    toolCatalog.map (fun t => propOf t "name") =
      [some (.str "get_current_volume"), some (.str "set_volume"),
       some (.str "get_mute_status"), some (.str "mute_system"),
       some (.str "unmute_system"), some (.str "increase_volume"),
       some (.str "decrease_volume")] ∧
    toolCatalog.length = 7 ∧
    ∀ t ∈ toolCatalog, ∃ (n d : String) (schema : Json),
      t = .obj [("name", .str n), ("description", .str d), ("inputSchema", schema)] := by
  have h1 := strictEq_of_ne hm (t := "initialize") (by decide)
  have hg := getProp_method hm
  refine ⟨by simp [onMessage, dispatch, hg, h1, hm, writeLine], ?_, rfl, ?_⟩
  · simp [toolCatalog, propOf, lookupKey]
  · intro t ht
    simp only [toolCatalog, List.mem_cons, List.mem_singleton, List.not_mem_nil, or_false] at ht
    rcases ht with rfl | rfl | rfl | rfl | rfl | rfl | rfl <;> exact ⟨_, _, _, rfl⟩

/-- C4 (amended) at a `tools/list` request with id 1 on a fresh process: the whole
world after the request. -/
theorem C4_tools_list_catalog_witness :
    onMessage idealBackend (plainRequest (.num 1) "tools/list")
        (freshWorld (Device.mk 50 false)) =
      { device := Device.mk 50 false, calls := [], stderr := [],
        stdout := [.obj [("jsonrpc", .str "2.0"), ("id", .num 1),
          ("result", .obj [("tools", .arr toolCatalog)])]] } :=
  (C4_tools_list_catalog idealBackend (freshWorld (Device.mk 50 false))
    (plainRequest (.num 1) "tools/list")
    (by simp [plainRequest, propOf, lookupKey, strictEq])).1

/-! ### C5: a backend failure becomes an error result -/

/-- C5. For every `tools/call` request (any tool name, any arguments) and every
backend: if a backend call made while the request is handled fails with message `m`,
the handler still writes exactly one response, and it is the normal result object
with `isError: true`, the text `Error: m` and
`structuredContent = {error: m, errorCode: -32603}`; there is no top-level `error`
member. -/
theorem C5_backend_failure_becomes_error_result (be : AudioBackend σ) (w : World σ)
    (message : Json) (name args : JsVal) (m : String)
    (hcall : IsToolsCall message name args)
    (hfail : ∃ c ∈ (onMessage be message w).calls.drop w.calls.length, c.failure = some m) :
    (onMessage be message w).stdout = w.stdout ++ [response (propOf message "id")
      (.obj [("content", .arr [.obj [("type", .str "text"), ("text", .str ("Error: " ++ m))]]),
             ("structuredContent", .obj [("error", .str m), ("errorCode", .num (-32603))]),
             ("isError", .bool true)])] := by
  rw [onMessage_toolsCall be w hcall] at hfail ⊢
  obtain ⟨hout, cs, hcalls, hprop⟩ := propagates_callTool be name args w
  obtain ⟨c, hc, hm⟩ := hfail
  unfold toolsCall at hc ⊢
  rcases hr : callTool be name args w with ⟨m' | ⟨text, data⟩, w1⟩ <;>
    rw [hr] at hout hcalls hprop hc <;> simp only [writeLine] at hout hcalls hc ⊢ <;>
    rw [hcalls, List.drop_left] at hc <;> have hres := hprop c hc m hm
  · simp only [Except.error.injEq] at hres
    subst hres
    simp [hout, toolResult]
  · simp at hres

/-- C5 at `increase_volume` on a backend that fails with `amixer: not found`. -/
theorem C5_backend_failure_becomes_error_result_witness :
    (onMessage (failingBackend "amixer: not found")
        (toolsCallRequest (.num 4) "increase_volume" none)
        (freshWorld (Device.mk 50 false))).stdout =
      [.obj [("jsonrpc", .str "2.0"), ("id", .num 4),
        ("result", .obj [("content", .arr [.obj [("type", .str "text"),
                    ("text", .str "Error: amixer: not found")]]),
                 ("structuredContent",
                    .obj [("error", .str "amixer: not found"), ("errorCode", .num (-32603))]),
                 ("isError", .bool true)])]] :=
  C5_backend_failure_becomes_error_result (failingBackend "amixer: not found")
    (freshWorld (Device.mk 50 false)) _ _ _ "amixer: not found"
    (isToolsCall_request (.num 4) "increase_volume" none)
    ⟨Call.getVolume (.error "amixer: not found"),
      by simp [onMessage_toolsCall _ _ (isToolsCall_request (.num 4) "increase_volume" none),
        toolsCall, callTool, strictEq, getCurrentVolume, loudnessGetVolume, failingBackend,
        writeLine, logError, freshWorld],
      rfl⟩

/-! ### C6: an unknown tool name -/

/-- C6. For every `tools/call` request whose tool name is none of the seven handled
names, and every backend, the handler writes exactly one response, a normal result
with `isError: true`, text `Error: e` and
`structuredContent = {error: e, errorCode: -32603}`, and changes nothing else: no
backend call is made and the device is untouched. The message `e` is
`Unknown tool: ` followed by the name, for a name that is a string and for every
other name a template literal can render. -/
theorem C6_unknown_tool (be : AudioBackend σ) (w : World σ) (message : Json)
    (name args : JsVal) (hcall : IsToolsCall message name args)
    (hname : ∀ s ∈ ["get_current_volume", "set_volume", "get_mute_status", "mute_system",
      "unmute_system", "increase_volume", "decrease_volume"], name ≠ some (.str s)) :
    ∃ e : String,
      onMessage be message w =
        { w with stdout := w.stdout ++ [response (propOf message "id")
          (.obj [("content", .arr [.obj [("type", .str "text"), ("text", .str ("Error: " ++ e))]]),
                 ("structuredContent", .obj [("error", .str e), ("errorCode", .num (-32603))]),
                 ("isError", .bool true)])] } ∧
      (∀ s, name = some (.str s) → e = "Unknown tool: " ++ s) ∧
      (∀ t, templateText name = .ok t → e = "Unknown tool: " ++ t) := by
  have hne : ∀ s ∈ ["get_current_volume", "set_volume", "get_mute_status", "mute_system",
      "unmute_system", "increase_volume", "decrease_volume"], strictEq name s = false := by
    intro s hs
    have := hname s hs
    unfold strictEq
    split
    · next t => simpa using fun h : t = s => this (by rw [h])
    · rfl
  rw [onMessage_toolsCall be w hcall]
  have hstr : ∀ s, name = some (.str s) → templateText name = .ok s := by
    rintro s rfl
    simp [templateText, jsToString]
  cases ht : templateText name with
  | error e =>
    refine ⟨e, ?_, fun s hs => ?_, fun t h => ?_⟩
    · simp [toolsCall, callTool, hne, ht, writeLine, toolResult]
    · rw [hstr s hs] at ht
      simp at ht
    · simp at h
  | ok t =>
    refine ⟨"Unknown tool: " ++ t, ?_, fun s hs => ?_, fun t' h => ?_⟩
    · simp [toolsCall, callTool, hne, ht, writeLine, toolResult]
    · rw [hstr s hs] at ht
      simp only [Except.ok.injEq] at ht
      rw [ht]
    · simp only [Except.ok.injEq] at h
      rw [h]

/-- C6 at the name `nonexistent_tool`: the whole world after the request. -/
theorem C6_unknown_tool_witness :
    onMessage idealBackend (toolsCallRequest (.num 5) "nonexistent_tool" none)
        (freshWorld (Device.mk 50 false)) =
      { device := Device.mk 50 false, calls := [], stderr := [],
        stdout := [.obj [("jsonrpc", .str "2.0"), ("id", .num 5),
          ("result", .obj [("content", .arr [.obj [("type", .str "text"),
                    ("text", .str "Error: Unknown tool: nonexistent_tool")]]),
                 ("structuredContent", .obj [("error", .str "Unknown tool: nonexistent_tool"),
                    ("errorCode", .num (-32603))]),
                 ("isError", .bool true)])]] } := by
  obtain ⟨e, h1, h2, _⟩ := C6_unknown_tool idealBackend (freshWorld (Device.mk 50 false))
    (toolsCallRequest (.num 5) "nonexistent_tool" none) _ _
    (isToolsCall_request (.num 5) "nonexistent_tool" none) (by simp)
  rw [h1, h2 _ rfl]
  rfl

/-! ### C7: `increase_volume` -/

/-- C7. On a device that never fails and that nothing else touches, whose volume is
an integer `n` in `[0, 100]`, an `increase_volume` call is answered by one success
result (`isError: false`) reporting `previousVolume = n`,
`newVolume = min(100, n + 10)`, `change = newVolume - n` and `action: "increase"`;
the reported `newVolume` is the volume the device is left with and is at most 100. -/
theorem C7_increase_volume (w : World Device) (message : Json) (args : JsVal) (n : ℤ)
    (hcall : IsToolsCall message (some (.str "increase_volume")) args)
    (hv : w.device.volume = (n : ℚ)) (h0 : 0 ≤ n) (h100 : n ≤ 100) :
    (onMessage idealBackend message w).stdout = w.stdout ++ [response (propOf message "id")
      (.obj [("content", .arr [.obj [("type", .str "text"),
                ("text", .str ("Volume increased from " ++ toString n ++ "% to "
                  ++ toString (min 100 (n + 10)) ++ "%"))]]),
             ("structuredContent",
                .obj [("previousVolume", .num (n : ℚ)),
                      ("newVolume", .num ((min 100 (n + 10) : ℤ) : ℚ)),
                      ("change", .num ((min 100 (n + 10) - n : ℤ) : ℚ)),
                      ("action", .str "increase"), ("unit", .str "percentage")]),
             ("isError", .bool false)])] ∧
    (onMessage idealBackend message w).device.volume = ((min 100 (n + 10) : ℤ) : ℚ) ∧
    min 100 (n + 10) ≤ 100 ∧ 0 ≤ min 100 (n + 10) := by
  rw [onMessage_toolsCall idealBackend w hcall]
  have hmin : min (100 : ℚ) ((n : ℚ) + 10) = ((min 100 (n + 10) : ℤ) : ℚ) := by
    push_cast
    rfl
  refine ⟨?_, ?_, min_le_left _ _, le_min (by norm_num) (by omega)⟩
  · simp only [toolsCall, callTool, strictEq, getCurrentVolume, increaseVolume,
      loudnessGetVolume, loudnessSetVolume, idealBackend, hv, hmin, writeLine, toolResult,
      numToString_intCast, ← Int.cast_sub]
    simp
  · simp only [toolsCall, callTool, strictEq, getCurrentVolume, increaseVolume,
      loudnessGetVolume, loudnessSetVolume, idealBackend, hv, hmin, writeLine]
    simp

/-- C7 at volume 95: the new volume is clamped to 100 and the change is 5. -/
theorem C7_increase_volume_witness :
    (onMessage idealBackend (toolsCallRequest (.num 6) "increase_volume" none)
        (freshWorld (Device.mk 95 false))).stdout =
      [.obj [("jsonrpc", .str "2.0"), ("id", .num 6),
        ("result", .obj [("content", .arr [.obj [("type", .str "text"),
                    ("text", .str "Volume increased from 95% to 100%")]]),
                 ("structuredContent",
                    .obj [("previousVolume", .num 95), ("newVolume", .num 100),
                          ("change", .num 5),
                          ("action", .str "increase"), ("unit", .str "percentage")]),
                 ("isError", .bool false)])]] ∧
    (onMessage idealBackend (toolsCallRequest (.num 6) "increase_volume" none)
        (freshWorld (Device.mk 95 false))).device.volume = 100 := by
  have h := C7_increase_volume (freshWorld (Device.mk 95 false))
    (toolsCallRequest (.num 6) "increase_volume" none) none 95
    (isToolsCall_request (.num 6) "increase_volume" none) (by simp [freshWorld])
    (by norm_num) (by norm_num)
  refine ⟨?_, ?_⟩
  · rw [h.1]
    simp [freshWorld, response, toolsCallRequest, propOf, lookupKey]
    decide
  · rw [h.2.1]
    norm_num

/-! ### C8: `decrease_volume` -/

/-- C8. On a device that never fails and that nothing else touches, whose volume is
an integer `n` in `[0, 100]`, a `decrease_volume` call is answered by one success
result (`isError: false`) reporting `previousVolume = n`,
`newVolume = max(0, n - 10)`, `change = newVolume - n` and `action: "decrease"`;
the reported `newVolume` is the volume the device is left with and is never
negative. -/
theorem C8_decrease_volume (w : World Device) (message : Json) (args : JsVal) (n : ℤ)
    (hcall : IsToolsCall message (some (.str "decrease_volume")) args)
    (hv : w.device.volume = (n : ℚ)) (h0 : 0 ≤ n) (h100 : n ≤ 100) :
    (onMessage idealBackend message w).stdout = w.stdout ++ [response (propOf message "id")
      (.obj [("content", .arr [.obj [("type", .str "text"),
                ("text", .str ("Volume decreased from " ++ toString n ++ "% to "
                  ++ toString (max 0 (n - 10)) ++ "%"))]]),
             ("structuredContent",
                .obj [("previousVolume", .num (n : ℚ)),
                      ("newVolume", .num ((max 0 (n - 10) : ℤ) : ℚ)),
                      ("change", .num ((max 0 (n - 10) - n : ℤ) : ℚ)),
                      ("action", .str "decrease"), ("unit", .str "percentage")]),
             ("isError", .bool false)])] ∧
    (onMessage idealBackend message w).device.volume = ((max 0 (n - 10) : ℤ) : ℚ) ∧
    0 ≤ max 0 (n - 10) ∧ max 0 (n - 10) ≤ 100 := by
  rw [onMessage_toolsCall idealBackend w hcall]
  have hmax : max (0 : ℚ) ((n : ℚ) - 10) = ((max 0 (n - 10) : ℤ) : ℚ) := by
    push_cast
    rfl
  refine ⟨?_, ?_, le_max_left _ _, max_le (by norm_num) (by omega)⟩
  · simp only [toolsCall, callTool, strictEq, getCurrentVolume, decreaseVolume,
      loudnessGetVolume, loudnessSetVolume, idealBackend, hv, hmax, writeLine, toolResult,
      numToString_intCast, ← Int.cast_sub]
    simp
  · simp only [toolsCall, callTool, strictEq, getCurrentVolume, decreaseVolume,
      loudnessGetVolume, loudnessSetVolume, idealBackend, hv, hmax, writeLine]
    simp

/-- C8 at volume 3: the new volume is clamped to 0 and the change is -3. -/
theorem C8_decrease_volume_witness :
    (onMessage idealBackend (toolsCallRequest (.num 7) "decrease_volume" none)
        (freshWorld (Device.mk 3 false))).stdout =
      [.obj [("jsonrpc", .str "2.0"), ("id", .num 7),
        ("result", .obj [("content", .arr [.obj [("type", .str "text"),
                    ("text", .str "Volume decreased from 3% to 0%")]]),
                 ("structuredContent",
                    .obj [("previousVolume", .num 3), ("newVolume", .num 0),
                          ("change", .num (-3)),
                          ("action", .str "decrease"), ("unit", .str "percentage")]),
                 ("isError", .bool false)])]] ∧
    (onMessage idealBackend (toolsCallRequest (.num 7) "decrease_volume" none)
        (freshWorld (Device.mk 3 false))).device.volume = 0 := by
  have h := C8_decrease_volume (freshWorld (Device.mk 3 false))
    (toolsCallRequest (.num 7) "decrease_volume" none) none 3
    (isToolsCall_request (.num 7) "decrease_volume" none) (by simp [freshWorld])
    (by norm_num) (by norm_num)
  refine ⟨?_, ?_⟩
  · rw [h.1]
    simp [freshWorld, response, toolsCallRequest, propOf, lookupKey]
    decide
  · rw [h.2.1]
    norm_num

/-! ### C9: `set_volume` followed by `get_current_volume` -/

/-- C9. On a device that never fails and that nothing else touches, a `set_volume`
call whose `volume` is a number `v` in `[0, 100]` is answered by one success result
with text `Volume set to t%`, where `t` is the rendering of `v`, and
`structuredContent = {volume: v, unit: "percentage", action: "set"}`, and leaves the
device at volume `v`; a `get_current_volume` call handled next is answered by a
success result with text `Current system volume is t%` reporting `volume: v`. When `v`
is an integer, `t` is `v` written in decimal. -/
theorem C9_set_then_get (w : World Device) (message next args : Json) (nextArgs : JsVal)
    (v : JsNum)
    (hcall : IsToolsCall message (some (.str "set_volume")) (some args))
    (hvol : propOf args "volume" = some (.num v)) (h0 : 0 ≤ v) (h100 : v ≤ 100)
    (hnext : IsToolsCall next (some (.str "get_current_volume")) nextArgs) :
    ∃ t : String,
      (onMessage idealBackend message w).stdout = w.stdout ++ [response (propOf message "id")
        (.obj [("content", .arr [.obj [("type", .str "text"),
                  ("text", .str ("Volume set to " ++ t ++ "%"))]]),
               ("structuredContent",
                  .obj [("volume", .num v), ("unit", .str "percentage"),
                        ("action", .str "set")]),
               ("isError", .bool false)])] ∧
      (onMessage idealBackend message w).device.volume = v ∧
      (onMessage idealBackend next (onMessage idealBackend message w)).stdout =
        (onMessage idealBackend message w).stdout ++ [response (propOf next "id")
          (.obj [("content", .arr [.obj [("type", .str "text"),
                    ("text", .str ("Current system volume is " ++ t ++ "%"))]]),
                 ("structuredContent", .obj [("volume", .num v), ("unit", .str "percentage")]),
                 ("isError", .bool false)])] ∧
      ∀ n : ℤ, v = (n : ℚ) → t = toString n := by
  have hargs : args ≠ Json.null := by
    rintro rfl
    simp [propOf] at hvol
  have hd : destructureVolume (some args) = .ok (propOf args "volume") := by
    cases args <;> first | exact absurd rfl hargs | rfl
  have hvalid : validVolume (propOf args "volume") = some v := by
    simp [validVolume, hvol, not_lt.2 h0, not_lt.2 h100]
  have hclamp : max 0 (min 100 v) = v := by
    rw [min_eq_right h100, max_eq_right h0]
  have hdev : (onMessage idealBackend message w).device.volume = v := by
    rw [onMessage_toolsCall idealBackend w hcall]
    simp [toolsCall, callTool, strictEq, hd, hvalid, setVolume, loudnessSetVolume,
      idealBackend, hclamp, writeLine]
  refine ⟨numToString v, ?_, hdev, ?_, fun n hn => by rw [hn, numToString_intCast]⟩
  · rw [onMessage_toolsCall idealBackend w hcall]
    simp [toolsCall, callTool, strictEq, hd, hvalid, setVolume, loudnessSetVolume,
      idealBackend, hclamp, writeLine, toolResult]
  · rw [onMessage_toolsCall idealBackend _ hnext]
    generalize onMessage idealBackend message w = w1 at hdev
    simp [toolsCall, callTool, strictEq, getCurrentVolume, loudnessGetVolume, idealBackend,
      hdev, writeLine, toolResult]

/-- C9 at `volume = 42`: both responses. -/
theorem C9_set_then_get_witness :
    (onMessage idealBackend (toolsCallRequest (.num 9) "get_current_volume" none)
      (onMessage idealBackend
        (toolsCallRequest (.num 8) "set_volume" (some (.obj [("volume", .num 42)])))
        (freshWorld (Device.mk 50 false)))).stdout =
      [.obj [("jsonrpc", .str "2.0"), ("id", .num 8),
        ("result", .obj [("content", .arr [.obj [("type", .str "text"),
                    ("text", .str "Volume set to 42%")]]),
                 ("structuredContent",
                    .obj [("volume", .num 42), ("unit", .str "percentage"),
                          ("action", .str "set")]),
                 ("isError", .bool false)])],
       .obj [("jsonrpc", .str "2.0"), ("id", .num 9),
        ("result", .obj [("content", .arr [.obj [("type", .str "text"),
                    ("text", .str "Current system volume is 42%")]]),
                 ("structuredContent",
                    .obj [("volume", .num 42), ("unit", .str "percentage")]),
                 ("isError", .bool false)])]] := by
  obtain ⟨t, h1, -, h3, h4⟩ := C9_set_then_get (freshWorld (Device.mk 50 false))
    (toolsCallRequest (.num 8) "set_volume" (some (.obj [("volume", .num 42)])))
    (toolsCallRequest (.num 9) "get_current_volume" none) (.obj [("volume", .num 42)]) none 42
    (isToolsCall_request _ _ _) (by simp [propOf, lookupKey]) (by norm_num) (by norm_num)
    (isToolsCall_request _ _ _)
  have ht : t = "42" := h4 42 (by norm_num)
  subst ht
  rw [h3, h1]
  simp [freshWorld, response, toolsCallRequest, propOf, lookupKey]

/-! ### C10: volume values at the boundaries -/

/-- C10, as stated, fails. From a device at the integer volume 50, the request
`set_volume` with `volume: 42.5` passes the validation, and the value handed to the
volume setter is 42.5: not every written value is an integer in `[0, 100]`. -/
theorem C10_non_integer_volume_counterexample :
    ¬ ∀ v ∈ writtenVolumes (onMessage idealBackend
          (toolsCallRequest (.num 1) "set_volume" (some (.obj [("volume", .num (85 / 2))])))
          (freshWorld (Device.mk 50 false))).calls,
        ∃ k : ℤ, (k : ℚ) = v ∧ 0 ≤ k ∧ k ≤ 100 := by
  intro h
  have hmem : (85 / 2 : ℚ) ∈ writtenVolumes (onMessage idealBackend
      (toolsCallRequest (.num 1) "set_volume" (some (.obj [("volume", .num (85 / 2))])))
      (freshWorld (Device.mk 50 false))).calls := by
    rw [onMessage_toolsCall _ _ (isToolsCall_request _ _ _)]
    have hvalid : validVolume (some (.num (85 / 2))) = some (85 / 2) := by
      norm_num [validVolume]
    have hclamp : max (0 : ℚ) (min 100 (85 / 2)) = 85 / 2 := by norm_num
    simp [toolsCall, callTool, strictEq, destructureVolume, propOf, lookupKey, hvalid,
      setVolume, loudnessSetVolume, idealBackend, hclamp, writeLine, freshWorld, writtenVolumes]
  obtain ⟨k, hk, _, _⟩ := h _ hmem
  have h2 : (2 * k : ℚ) = 85 := by linarith
  have h3 : 2 * k = 85 := by exact_mod_cast h2
  omega

/-- C10, amended. On a device that never fails and that nothing else touches, whose
volume is an integer in `[0, 100]`, and for every parsed message: every value the
handler hands to the volume setter, and every `volume`, `previousVolume` and
`newVolume` it reports in a success result, is a number in `[0, 100]`; that number is
an integer unless the request is a `set_volume` call (which accepts every number in
`[0, 100]`, integer or not). -/
theorem C10_volume_values_in_range (w : World Device) (message : Json) (n : ℤ)
    (hv : w.device.volume = (n : ℚ)) (h0 : 0 ≤ n) (h100 : n ≤ 100) :
    (∀ v ∈ writtenVolumes ((onMessage idealBackend message w).calls.drop w.calls.length),
      0 ≤ v ∧ v ≤ 100 ∧
        ((∃ k : ℤ, (k : ℚ) = v) ∨ strictEq (toolName message) "set_volume" = true)) ∧
    (∀ line ∈ (onMessage idealBackend message w).stdout.drop w.stdout.length,
      ∀ x ∈ reportedVolumes line, ∃ v, x = .num v ∧ 0 ≤ v ∧ v ≤ 100 ∧
        ((∃ k : ℤ, (k : ℚ) = v) ∨ strictEq (toolName message) "set_volume" = true)) := by
  rcases onMessage_cases idealBackend w message with
    ⟨line, h⟩ | ⟨result, hres, h⟩ | ⟨name, args, hcall, h⟩
  · rw [h]
    simp [logError, writtenVolumes]
  · rw [h]
    refine ⟨by simp [writeLine, writtenVolumes], ?_⟩
    intro line hline x hx
    simp only [writeLine, List.drop_left, List.mem_singleton] at hline
    subst hline
    rw [reportedVolumes_plain _ _ (by rcases hres with rfl | rfl | rfl <;> rfl)] at hx
    simp at hx
  · rw [h, toolName_of_isToolsCall hcall]
    exact toolsCall_ideal_volumes w _ name args n hv h0 h100

/-- C10 (amended) at `increase_volume` from volume 95. -/
theorem C10_volume_values_in_range_witness :
    (∀ v ∈ writtenVolumes ((onMessage idealBackend
          (toolsCallRequest (.num 1) "increase_volume" none)
          (freshWorld (Device.mk 95 false))).calls.drop
            (freshWorld (Device.mk 95 false)).calls.length),
      0 ≤ v ∧ v ≤ 100 ∧
        ((∃ k : ℤ, (k : ℚ) = v) ∨
          strictEq (toolName (toolsCallRequest (.num 1) "increase_volume" none))
            "set_volume" = true)) ∧
    (∀ line ∈ (onMessage idealBackend (toolsCallRequest (.num 1) "increase_volume" none)
          (freshWorld (Device.mk 95 false))).stdout.drop
            (freshWorld (Device.mk 95 false)).stdout.length,
      ∀ x ∈ reportedVolumes line, ∃ v, x = .num v ∧ 0 ≤ v ∧ v ≤ 100 ∧
        ((∃ k : ℤ, (k : ℚ) = v) ∨
          strictEq (toolName (toolsCallRequest (.num 1) "increase_volume" none))
            "set_volume" = true)) :=
  C10_volume_values_in_range (freshWorld (Device.mk 95 false))
    (toolsCallRequest (.num 1) "increase_volume" none) 95 (by simp [freshWorld])
    (by norm_num) (by norm_num)

/-! ### C11: a line that is not JSON -/

/-- C11. For every line that `JSON.parse` rejects (with message `m`), every backend and
every history: handling the line changes nothing but standard error, to which the one
line `Error processing message: m` is added; so no response is written and no backend
call is made. Later lines are still handled, and as if the bad line had not been there:
the responses written, the backend calls made and the device reached by any later line
are the same with and without it. -/
theorem C11_invalid_json_line (parse : String → Except String Json) (be : AudioBackend σ)
    (w : World σ) (line m : String) (hparse : parse line = .error m) :
    onLine parse be line w =
      { w with stderr := w.stderr ++ ["Error processing message: " ++ m] } ∧
    ∀ next : String,
      (onLine parse be next (onLine parse be line w)).stdout =
          (onLine parse be next w).stdout ∧
      (onLine parse be next (onLine parse be line w)).calls =
          (onLine parse be next w).calls ∧
      (onLine parse be next (onLine parse be line w)).device =
          (onLine parse be next w).device := by
  have h1 : onLine parse be line w =
      { w with stderr := w.stderr ++ ["Error processing message: " ++ m] } := by
    simp [onLine, hparse, logError]
  refine ⟨h1, fun next => ?_⟩
  have hs : SameButStderr (onLine parse be line w) w := by
    rw [h1]
    exact ⟨rfl, rfl, rfl⟩
  obtain ⟨k1, k2, k3⟩ := same_onLine parse be next hs
  exact ⟨k3, k2, k1⟩

/-- C11 at the line `oops`, followed by the line `42`: the bad line only adds a
diagnostic, and the later line gets its response. -/
theorem C11_invalid_json_line_witness :
    onLine sampleParse idealBackend "oops" (freshWorld (Device.mk 50 false)) =
      { device := Device.mk 50 false, calls := [], stdout := [],
        stderr := ["Error processing message: Unexpected token"] } ∧
    (onLine sampleParse idealBackend "42"
        (onLine sampleParse idealBackend "oops" (freshWorld (Device.mk 50 false)))).stdout =
      [.obj [("jsonrpc", .str "2.0"), ("result", .obj [])]] := by
  have h := C11_invalid_json_line sampleParse idealBackend (freshWorld (Device.mk 50 false))
    "oops" "Unexpected token" (by simp [sampleParse])
  refine ⟨h.1, ?_⟩
  rw [(h.2 "42").1]
  rfl

/-! ### C12: `mute_system` is idempotent -/

/-- C12. On a device that never fails and that nothing else touches, in any state,
two `mute_system` calls in a row are each answered by the success result
(`isError: false`) with `structuredContent = {muted: true, action: "mute"}`, and the
device after the second call is the device after the first: muted, with the volume it
had before the calls. -/
theorem C12_mute_idempotent (w : World Device) (first second : Json) (args args' : JsVal)
    (h1 : IsToolsCall first (some (.str "mute_system")) args)
    (h2 : IsToolsCall second (some (.str "mute_system")) args') :
    (onMessage idealBackend second (onMessage idealBackend first w)).stdout =
      w.stdout ++
        [response (propOf first "id")
          (.obj [("content", .arr [.obj [("type", .str "text"),
                    ("text", .str "System has been muted")]]),
                 ("structuredContent", .obj [("muted", .bool true), ("action", .str "mute")]),
                 ("isError", .bool false)]),
         response (propOf second "id")
          (.obj [("content", .arr [.obj [("type", .str "text"),
                    ("text", .str "System has been muted")]]),
                 ("structuredContent", .obj [("muted", .bool true), ("action", .str "mute")]),
                 ("isError", .bool false)])] ∧
    (onMessage idealBackend first w).device = { volume := w.device.volume, muted := true } ∧
    (onMessage idealBackend second (onMessage idealBackend first w)).device =
      (onMessage idealBackend first w).device := by
  rw [onMessage_toolsCall idealBackend _ h2, onMessage_toolsCall idealBackend w h1]
  simp [toolsCall, callTool, strictEq, mute, loudnessSetMuted, idealBackend, writeLine,
    toolResult]

/-- C12 on a device at volume 30 that is not muted: both responses and the final
device. -/
theorem C12_mute_idempotent_witness :
    (onMessage idealBackend (toolsCallRequest (.num 2) "mute_system" none)
      (onMessage idealBackend (toolsCallRequest (.num 1) "mute_system" none)
        (freshWorld (Device.mk 30 false)))).stdout =
      [.obj [("jsonrpc", .str "2.0"), ("id", .num 1),
        ("result", .obj [("content", .arr [.obj [("type", .str "text"),
                    ("text", .str "System has been muted")]]),
                 ("structuredContent", .obj [("muted", .bool true), ("action", .str "mute")]),
                 ("isError", .bool false)])],
       .obj [("jsonrpc", .str "2.0"), ("id", .num 2),
        ("result", .obj [("content", .arr [.obj [("type", .str "text"),
                    ("text", .str "System has been muted")]]),
                 ("structuredContent", .obj [("muted", .bool true), ("action", .str "mute")]),
                 ("isError", .bool false)])]] ∧
    (onMessage idealBackend (toolsCallRequest (.num 1) "mute_system" none)
        (freshWorld (Device.mk 30 false))).device = Device.mk 30 true ∧
    (onMessage idealBackend (toolsCallRequest (.num 2) "mute_system" none)
      (onMessage idealBackend (toolsCallRequest (.num 1) "mute_system" none)
        (freshWorld (Device.mk 30 false)))).device =
      (onMessage idealBackend (toolsCallRequest (.num 1) "mute_system" none)
        (freshWorld (Device.mk 30 false))).device :=
  C12_mute_idempotent (freshWorld (Device.mk 30 false))
    (toolsCallRequest (.num 1) "mute_system" none)
    (toolsCallRequest (.num 2) "mute_system" none) none none
    (isToolsCall_request _ _ _) (isToolsCall_request _ _ _)

/-! ### C13: any other method -/

/-- C13. For every parsed message other than `null` whose method is none of
`initialize`, `tools/list` and `tools/call` (a missing method included), and every
backend, the handler writes exactly one response, `{jsonrpc: "2.0", id, result: {}}`
with the id of the request and an empty result object, and changes nothing else: no
backend call is made and the device is untouched. -/
theorem C13_other_method (be : AudioBackend σ) (w : World σ) (message : Json)
    (hmsg : message ≠ Json.null)
    (h1 : strictEq (propOf message "method") "initialize" = false)
    (h2 : strictEq (propOf message "method") "tools/list" = false)
    (h3 : strictEq (propOf message "method") "tools/call" = false) :
    onMessage be message w =
      { w with stdout := w.stdout ++ [response (propOf message "id") (.obj [])] } ∧
    ∀ i, propOf message "id" = some i →
      response (propOf message "id") (.obj []) =
        .obj [("jsonrpc", .str "2.0"), ("id", i), ("result", .obj [])] := by
  refine ⟨?_, fun i hi => by rw [hi]; rfl⟩
  simp [onMessage, dispatch, getProp_of_ne_null hmsg, h1, h2, h3, writeLine]

/-- C13 at the method `ping` with id 3, and at a request without a method. -/
theorem C13_other_method_witness :
    onMessage idealBackend (plainRequest (.num 3) "ping") (freshWorld (Device.mk 50 false)) =
      { device := Device.mk 50 false, calls := [], stderr := [],
        stdout := [.obj [("jsonrpc", .str "2.0"), ("id", .num 3), ("result", .obj [])]] } ∧
    onMessage idealBackend (.obj [("jsonrpc", .str "2.0"), ("id", .str "a")])
        (freshWorld (Device.mk 50 false)) =
      { device := Device.mk 50 false, calls := [], stderr := [],
        stdout := [.obj [("jsonrpc", .str "2.0"), ("id", .str "a"), ("result", .obj [])]] } :=
  ⟨(C13_other_method idealBackend (freshWorld (Device.mk 50 false))
      (plainRequest (.num 3) "ping") (by simp [plainRequest])
      (by simp [plainRequest, propOf, lookupKey, strictEq])
      (by simp [plainRequest, propOf, lookupKey, strictEq])
      (by simp [plainRequest, propOf, lookupKey, strictEq])).1,
   (C13_other_method idealBackend (freshWorld (Device.mk 50 false))
      (.obj [("jsonrpc", .str "2.0"), ("id", .str "a")]) (by simp)
      (by simp [propOf, lookupKey, strictEq])
      (by simp [propOf, lookupKey, strictEq])
      (by simp [propOf, lookupKey, strictEq])).1⟩

/-! ### C14: `initialize` -/

/-- C14. For every `initialize` request, whatever its `params` and its id, and every
backend in any state, the handler writes exactly one response, whose result is
`{protocolVersion: "2024-11-05", capabilities: {tools: {}},
serverInfo: {name: "computer-volume-control-mcp", version: "1.0.0"}}`, and changes
nothing else: no backend call is made and the device is untouched. -/
theorem C14_initialize (be : AudioBackend σ) (w : World σ) (message : Json)
    (hm : strictEq (propOf message "method") "initialize" = true) :
    onMessage be message w =
      { w with stdout := w.stdout ++ [response (propOf message "id")
        (.obj [("protocolVersion", .str "2024-11-05"),
               ("capabilities", .obj [("tools", .obj [])]),
               ("serverInfo", .obj [("name", .str "computer-volume-control-mcp"),
                                    ("version", .str "1.0.0")])])] } := by
  simp [onMessage, dispatch, getProp_method hm, hm, writeLine, initializeResult]

/-- C14 at an `initialize` request with id 0 on a backend whose every operation
fails. -/
theorem C14_initialize_witness :
    onMessage (failingBackend "no audio device") (plainRequest (.num 0) "initialize")
        (freshWorld (Device.mk 50 false)) =
      { device := Device.mk 50 false, calls := [], stderr := [],
        stdout := [.obj [("jsonrpc", .str "2.0"), ("id", .num 0),
          ("result", .obj [("protocolVersion", .str "2024-11-05"),
               ("capabilities", .obj [("tools", .obj [])]),
               ("serverInfo", .obj [("name", .str "computer-volume-control-mcp"),
                                    ("version", .str "1.0.0")])])]] } :=
  C14_initialize (failingBackend "no audio device") (freshWorld (Device.mk 50 false))
    (plainRequest (.num 0) "initialize")
    (by simp [plainRequest, propOf, lookupKey, strictEq])

/-! ### C15: the three calls of the relative-volume tools -/

/-- C15. For every backend and every run of an `increase_volume` (`up = true`) or
`decrease_volume` (`up = false`) call in which the backend operations do not fail and
the three reads return integers `n1`, `n2`, `n3` of magnitude at most `10^15` (so that
the sums and differences below are exact in JS), whatever these integers are: the
handler runs exactly three tool-layer calls, in this order: `getCurrentVolume` (one
read, `n1`), the adjust operation `increaseVolume` / `decreaseVolume` (which reads
again, `n2`, and writes `min(100, n2 + 10)` / `max(0, n2 - 10)`), and `getCurrentVolume`
again (one read, `n3`). The one response written reports `previousVolume = n1`,
`newVolume = n3` and `change = n3 - n1`, whether or not these agree with the value
written; every number involved is an integer of magnitude at most `2^53`. -/
theorem C15_three_backend_calls (be : AudioBackend σ) (w : World σ) (message : Json)
    (args : JsVal) (up : Bool) (n1 n2 n3 : ℤ) (d1 d2 d3 d4 : σ)
    (hcall : IsToolsCall message
      (some (.str (if up then "increase_volume" else "decrease_volume"))) args)
    (hb1 : |n1| ≤ 10 ^ 15) (hb2 : |n2| ≤ 10 ^ 15) (hb3 : |n3| ≤ 10 ^ 15)
    (h1 : be.getVolume w.device = (.ok (n1 : ℚ), d1))
    (h2 : be.getVolume d1 = (.ok (n2 : ℚ), d2))
    (h3 : be.setVolume
      (((if up then min 100 (n2 + 10) else max 0 (n2 - 10) : ℤ) : ℤ) : ℚ) d2 = (.ok (), d3))
    (h4 : be.getVolume d3 = (.ok (n3 : ℚ), d4)) :
    ∃ w1 w2 w3 : World σ,
      w1 = { w with device := d1, calls := w.calls ++ [Call.getVolume (.ok (n1 : ℚ))] } ∧
      getCurrentVolume be w = (.ok (n1 : ℚ), w1) ∧
      w2 = { w1 with device := d3, calls := w1.calls ++ [Call.getVolume (.ok (n2 : ℚ)),
        Call.setVolume (((if up then min 100 (n2 + 10) else max 0 (n2 - 10) : ℤ) : ℤ) : ℚ)
          (.ok ())] } ∧
      (if up then increaseVolume be w1 else decreaseVolume be w1) = (.ok (), w2) ∧
      w3 = { w2 with device := d4, calls := w2.calls ++ [Call.getVolume (.ok (n3 : ℚ))] } ∧
      getCurrentVolume be w2 = (.ok (n3 : ℚ), w3) ∧
      onMessage be message w =
        { w3 with stdout := w.stdout ++ [response (propOf message "id")
          (.obj [("content", .arr [.obj [("type", .str "text"),
                    ("text", .str ("Volume " ++ (if up then "increased" else "decreased")
                      ++ " from " ++ toString n1 ++ "% to " ++ toString n3 ++ "%"))]]),
                 ("structuredContent",
                    .obj [("previousVolume", .num (n1 : ℚ)), ("newVolume", .num (n3 : ℚ)),
                          ("change", .num ((n3 - n1 : ℤ) : ℚ)),
                          ("action", .str (if up then "increase" else "decrease")),
                          ("unit", .str "percentage")]),
                 ("isError", .bool false)])] } ∧
      |n2 + 10| ≤ 2 ^ 53 ∧ |n2 - 10| ≤ 2 ^ 53 ∧ |n3 - n1| ≤ 2 ^ 53 := by
  have hmin : min (100 : ℚ) ((n2 : ℚ) + 10) = ((min 100 (n2 + 10) : ℤ) : ℚ) := by
    push_cast
    rfl
  have hmax : max (0 : ℚ) ((n2 : ℚ) - 10) = ((max 0 (n2 - 10) : ℤ) : ℚ) := by
    push_cast
    rfl
  have hsub : (n3 : ℚ) - (n1 : ℚ) = ((n3 - n1 : ℤ) : ℚ) := by push_cast; rfl
  have hbounds : |n2 + 10| ≤ 2 ^ 53 ∧ |n2 - 10| ≤ 2 ^ 53 ∧ |n3 - n1| ≤ 2 ^ 53 := by
    rw [abs_le] at hb1 hb2 hb3
    refine ⟨abs_le.2 ⟨?_, ?_⟩, abs_le.2 ⟨?_, ?_⟩, abs_le.2 ⟨?_, ?_⟩⟩ <;> norm_num at * <;> omega
  rw [onMessage_toolsCall be w hcall]
  cases up
  · simp only [Bool.false_eq_true, if_false] at h3 ⊢
    refine ⟨_, _, _, rfl, ?_, rfl, ?_, rfl, ?_, ?_, hbounds⟩
    · simp only [getCurrentVolume, loudnessGetVolume, h1]
    · simp only [decreaseVolume, loudnessGetVolume, loudnessSetVolume, h2, hmax, h3,
        List.append_assoc]
      rfl
    · simp only [getCurrentVolume, loudnessGetVolume, h4]
    · simp only [toolsCall, callTool, strictEq, getCurrentVolume, decreaseVolume,
        loudnessGetVolume, loudnessSetVolume, h1, h2, hmax, h3, h4, hsub, writeLine, toolResult,
        numToString_intCast]
      simp
  · simp only [if_true] at h3 ⊢
    refine ⟨_, _, _, rfl, ?_, rfl, ?_, rfl, ?_, ?_, hbounds⟩
    · simp only [getCurrentVolume, loudnessGetVolume, h1]
    · simp only [increaseVolume, loudnessGetVolume, loudnessSetVolume, h2, hmin, h3,
        List.append_assoc]
      rfl
    · simp only [getCurrentVolume, loudnessGetVolume, h4]
    · simp only [toolsCall, callTool, strictEq, getCurrentVolume, increaseVolume,
        loudnessGetVolume, loudnessSetVolume, h1, h2, hmin, h3, h4, hsub, writeLine, toolResult,
        numToString_intCast]
      simp

/-- C15 on a device that something else keeps changing: the three reads return 50, 70
and 20. The adjust operation writes `min(100, 70 + 10) = 80`, and the response reports
`previousVolume = 50`, `newVolume = 20`, `change = -30`. -/
theorem C15_three_backend_calls_witness :
    (onMessage scriptedBackend (toolsCallRequest (.num 1) "increase_volume" none)
        (freshWorld [50, 70, 20])).calls =
      [Call.getVolume (.ok 50), Call.getVolume (.ok 70), Call.setVolume 80 (.ok ()),
       Call.getVolume (.ok 20)] ∧
    (onMessage scriptedBackend (toolsCallRequest (.num 1) "increase_volume" none)
        (freshWorld [50, 70, 20])).stdout =
      [.obj [("jsonrpc", .str "2.0"), ("id", .num 1),
        ("result", .obj [("content", .arr [.obj [("type", .str "text"),
                    ("text", .str "Volume increased from 50% to 20%")]]),
                 ("structuredContent",
                    .obj [("previousVolume", .num 50), ("newVolume", .num 20),
                          ("change", .num (-30)),
                          ("action", .str "increase"), ("unit", .str "percentage")]),
                 ("isError", .bool false)])]] := by
  obtain ⟨w1, w2, w3, rfl, -, rfl, -, rfl, -, h, -⟩ :=
    C15_three_backend_calls scriptedBackend (freshWorld [50, 70, 20])
      (toolsCallRequest (.num 1) "increase_volume" none) none true 50 70 20
      [70, 20] [20] [20] []
      (isToolsCall_request _ _ _) (by norm_num) (by norm_num) (by norm_num)
      (by simp [scriptedBackend, freshWorld]) (by simp [scriptedBackend])
      (by simp [scriptedBackend]) (by simp [scriptedBackend])
  rw [h]
  refine ⟨by norm_num [freshWorld], ?_⟩
  simp [freshWorld, response, toolsCallRequest, propOf, lookupKey]
  decide

/-! ### C16: `setVolume` clamps -/

/-- C16, evaluated where it fails. For the number `NaN` the value that `setVolume`
computes and hands to `loudness.setVolume` is `NaN`: both `Math.min(100, NaN)` and
`Math.max(0, NaN)` are `NaN`, so the value written is not a number in `[0, 100]`. -/
theorem C16_setVolume_passes_nan :
    clampedVolume .nan = .nan ∧
    ¬ ∃ q : JsNum, clampedVolume .nan = .finite q ∧ 0 ≤ q ∧ q ≤ 100 := by
  refine ⟨rfl, ?_⟩
  rintro ⟨q, hq, -⟩
  simp [clampedVolume, mathMin, mathMax] at hq

/-! ### C17: the catalog and the handlers agree -/

/-- C17. Every entry of the catalog has a string name and no name is listed twice.
A listed name is handled by `tools/call`: on the device that never fails, a call with
that name is never answered by the error `Unknown tool: <name>`, whatever the
arguments. A name that is not listed is not handled: for every backend the call fails
with `Unknown tool: <name>` and touches nothing. -/
theorem C17_catalog_matches_handlers :
    catalogNames.length = toolCatalog.length ∧ catalogNames.Nodup ∧
    (∀ s ∈ catalogNames, ∀ (w : World Device) (args : JsVal),
      (callTool idealBackend (some (.str s)) args w).1 ≠ .error ("Unknown tool: " ++ s)) ∧
    (∀ s, s ∉ catalogNames → ∀ (τ : Type) (be : AudioBackend τ) (w : World τ) (args : JsVal),
      callTool be (some (.str s)) args w = (.error ("Unknown tool: " ++ s), w)) := by
  have hnames : catalogNames = ["get_current_volume", "set_volume", "get_mute_status",
      "mute_system", "unmute_system", "increase_volume", "decrease_volume"] := by
    simp [catalogNames, toolCatalog, propOf, lookupKey]
  refine ⟨by rw [hnames]; rfl, by rw [hnames]; decide, ?_, ?_⟩
  · intro s hs w args
    rw [hnames] at hs
    simp only [List.mem_cons, List.mem_singleton, List.not_mem_nil, or_false] at hs
    rcases hs with rfl | rfl | rfl | rfl | rfl | rfl | rfl
    · simp [callTool, strictEq, getCurrentVolume, loudnessGetVolume, idealBackend]
    · cases hd : destructureVolume args with
      | error m =>
        have hm : m ≠ "Unknown tool: set_volume" := by
          rintro rfl
          unfold destructureVolume at hd
          split at hd <;> simp at hd
        simpa [callTool, strictEq, hd] using hm
      | ok newVolume =>
        cases hq : validVolume newVolume <;>
          simp [callTool, strictEq, hd, hq, setVolume, loudnessSetVolume, idealBackend]
    · simp [callTool, strictEq, getMuteStatus, loudnessGetMuted, idealBackend]
    · simp [callTool, strictEq, mute, loudnessSetMuted, idealBackend]
    · simp [callTool, strictEq, unmute, loudnessSetMuted, idealBackend]
    · simp [callTool, strictEq, getCurrentVolume, increaseVolume, loudnessGetVolume,
        loudnessSetVolume, idealBackend]
    · simp [callTool, strictEq, getCurrentVolume, decreaseVolume, loudnessGetVolume,
        loudnessSetVolume, idealBackend]
  · intro s hs τ be w args
    rw [hnames] at hs
    simp only [List.mem_cons, List.mem_singleton, List.not_mem_nil, or_false, not_or] at hs
    obtain ⟨h1, h2, h3, h4, h5, h6, h7⟩ := hs
    simp [callTool, strictEq, h1, h2, h3, h4, h5, h6, h7, templateText, jsToString]

/-- C17 at the listed name `mute_system` and at the unlisted name `reboot`. -/
theorem C17_catalog_matches_handlers_witness :
    (callTool idealBackend (some (.str "mute_system")) none
        (freshWorld (Device.mk 50 false))).1 ≠ .error ("Unknown tool: " ++ "mute_system") ∧
    callTool idealBackend (some (.str "reboot")) none (freshWorld (Device.mk 50 false)) =
      (.error ("Unknown tool: " ++ "reboot"), freshWorld (Device.mk 50 false)) :=
  ⟨C17_catalog_matches_handlers.2.2.1 "mute_system" (by decide) _ _,
   C17_catalog_matches_handlers.2.2.2 "reboot" (by decide) _ _ _ _⟩

/-! ### C18: only `set_volume` reads its arguments -/

/-- C18. For every tool name other than `set_volume` (handled or not), every backend
and every state: two `tools/call` requests with the same id and the same name, whatever
their `arguments` (absent, `null` or any value), leave the same world: the same
response is written, the same backend calls are made and the device ends in the same
state. -/
theorem C18_arguments_ignored (be : AudioBackend σ) (w : World σ) (m1 m2 : Json)
    (name args1 args2 : JsVal)
    (h1 : IsToolsCall m1 name args1) (h2 : IsToolsCall m2 name args2)
    (hid : propOf m1 "id" = propOf m2 "id")
    (hname : name ≠ some (.str "set_volume")) :
    onMessage be m1 w = onMessage be m2 w := by
  have hs : strictEq name "set_volume" = false := by
    unfold strictEq
    split
    · next t => simpa using fun h : t = "set_volume" => hname (by rw [h])
    · rfl
  rw [onMessage_toolsCall be w h1, onMessage_toolsCall be w h2, hid]
  have hc : callTool be name args1 w = callTool be name args2 w := by
    unfold callTool
    simp only [hs, Bool.false_eq_true, if_false]
  unfold toolsCall
  rw [hc]

/-- C18 at `increase_volume`, once without arguments and once with
`arguments: {volume: 3}`. -/
theorem C18_arguments_ignored_witness :
    onMessage idealBackend (toolsCallRequest (.num 1) "increase_volume" none)
        (freshWorld (Device.mk 50 false)) =
      onMessage idealBackend
        (toolsCallRequest (.num 1) "increase_volume" (some (.obj [("volume", .num 3)])))
        (freshWorld (Device.mk 50 false)) :=
  C18_arguments_ignored idealBackend (freshWorld (Device.mk 50 false)) _ _
    (some (.str "increase_volume")) none (some (.obj [("volume", .num 3)]))
    (isToolsCall_request _ _ _) (isToolsCall_request _ _ _)
    (by simp [toolsCallRequest, propOf, lookupKey]) (by simp)

/-! ### C19: each operation changes only its own field -/

/-- C19. On a device that never fails and that nothing else touches, in any state:
a message whose method is not `tools/call` (`initialize`, `tools/list`, any other
method) leaves the device unchanged; and for a `tools/call` with tool name `name`,
(1) when `name` is none of `set_volume`, `increase_volume`, `decrease_volume`,
`mute_system`, `unmute_system` (so for `get_current_volume`, `get_mute_status` and every
unknown name) the device is unchanged; (2) a `set_volume` call whose validation fails
leaves the device unchanged; (3) when `name` is neither `mute_system` nor
`unmute_system` (so for `set_volume`, `increase_volume`, `decrease_volume`) the mute
flag is unchanged; (4) when `name` is none of `set_volume`, `increase_volume`,
`decrease_volume` (so for `mute_system` and `unmute_system`) the volume is unchanged. -/
theorem C19_frame (w : World Device) (message : Json) :
    (strictEq (propOf message "method") "tools/call" = false →
      (onMessage idealBackend message w).device = w.device) ∧
    ∀ name args, IsToolsCall message name args →
      ((strictEq name "set_volume" = false ∧ strictEq name "increase_volume" = false ∧
          strictEq name "decrease_volume" = false ∧ strictEq name "mute_system" = false ∧
          strictEq name "unmute_system" = false) →
        (onMessage idealBackend message w).device = w.device) ∧
      (strictEq name "set_volume" = true →
        (∀ a q, args = some a → propOf a "volume" = some (.num q) → q < 0 ∨ 100 < q) →
        (onMessage idealBackend message w).device = w.device) ∧
      (strictEq name "mute_system" = false → strictEq name "unmute_system" = false →
        (onMessage idealBackend message w).device.muted = w.device.muted) ∧
      (strictEq name "set_volume" = false → strictEq name "increase_volume" = false →
        strictEq name "decrease_volume" = false →
        (onMessage idealBackend message w).device.volume = w.device.volume) := by
  constructor
  · intro hm
    rcases onMessage_shape idealBackend message with ⟨l, hl⟩ | ⟨result, hr⟩ | ⟨name, args, hc⟩
    · rw [hl]
      rfl
    · rw [hr]
      rfl
    · rw [hc.1] at hm
      simp at hm
  · intro name args hcall
    rw [onMessage_toolsCall idealBackend w hcall]
    exact toolsCall_ideal_device w _ name args

/-- C19 on a device at volume 30, muted: `initialize` and a rejected `set_volume`
leave it as it is, an accepted `set_volume` keeps it muted, and `unmute_system` keeps
its volume. -/
theorem C19_frame_witness :
    (onMessage idealBackend (plainRequest (.num 1) "initialize")
        (freshWorld (Device.mk 30 true))).device = Device.mk 30 true ∧
    (onMessage idealBackend
        (toolsCallRequest (.num 2) "set_volume" (some (.obj [("volume", .num 150)])))
        (freshWorld (Device.mk 30 true))).device = Device.mk 30 true ∧
    (onMessage idealBackend
        (toolsCallRequest (.num 3) "set_volume" (some (.obj [("volume", .num 42)])))
        (freshWorld (Device.mk 30 true))).device.muted = true ∧
    (onMessage idealBackend (toolsCallRequest (.num 4) "unmute_system" none)
        (freshWorld (Device.mk 30 true))).device.volume = 30 :=
  ⟨(C19_frame (freshWorld (Device.mk 30 true)) (plainRequest (.num 1) "initialize")).1
      (by simp [plainRequest, propOf, lookupKey, strictEq]),
   ((C19_frame (freshWorld (Device.mk 30 true))
      (toolsCallRequest (.num 2) "set_volume" (some (.obj [("volume", .num 150)])))).2 _ _
      (isToolsCall_request _ _ _)).2.1 (by simp [strictEq])
      (by
        intro a q ha hq
        simp only [Option.some.injEq] at ha
        subst ha
        simp [propOf, lookupKey] at hq
        subst hq
        norm_num),
   ((C19_frame (freshWorld (Device.mk 30 true))
      (toolsCallRequest (.num 3) "set_volume" (some (.obj [("volume", .num 42)])))).2 _ _
      (isToolsCall_request _ _ _)).2.2.1 (by simp [strictEq]) (by simp [strictEq]),
   ((C19_frame (freshWorld (Device.mk 30 true))
      (toolsCallRequest (.num 4) "unmute_system" none)).2 _ _
      (isToolsCall_request _ _ _)).2.2.2 (by simp [strictEq]) (by simp [strictEq])
      (by simp [strictEq])⟩

end VolumeMcp
